import Mathlib

/-!
Shallow embedding of the record CRUD access-control layer of hanzoai/backendPB
(`apis/record_crud.go`): the five record handlers `recordsList`, `recordView`,
`recordCreate`, `recordUpdate`, `recordDelete`, together with
`hasAuthManageAccess`, `recordDataFromRequest` and `randomizedThrottle`.

External collaborators (database execution, rule-expression compilation, the
hook chain, rate limiting, the upsert form) are modelled as explicit
environment inputs: each handler is a pure function from its environment to an
outcome (plus a trace of the security-relevant intermediate data).  Machine
behaviour that the handlers branch on — "did this external call succeed, and
with what value" — becomes a field of the environment, so a theorem quantified
over the whole environment states a property of the handler's own control flow,
independent of any particular database or rule semantics.
-/

namespace HanzoBase

/-- A dynamic record field value (the values appearing in submitted data maps
and in exported DB parameters). -/
inductive Val where
  | str (s : String)
  | boolean (b : Bool)
  | num (n : Int)
  | null
deriving DecidableEq, Repr

/-- Collection type: `base`, `auth` or `view` (see `core.Collection`). -/
inductive CollectionType where
  | base
  | auth
  | view
deriving DecidableEq, Repr

/-- A collection schema field: only the parts the CRUD layer inspects
(`GetName`, `GetHidden`). -/
structure Field where
  name : String
  hidden : Bool
deriving DecidableEq, Repr

/-- A collection with its five CRUD rule slots plus `ManageRule`.  Each rule
slot is `Option String`: `none` = absent (nil pointer), `some ""` = empty
string, `some r` with `r ≠ ""` = a rule expression. -/
structure Collection where
  id : String
  name : String
  ctype : CollectionType
  fields : List Field
  listRule : Option String
  viewRule : Option String
  createRule : Option String
  updateRule : Option String
  deleteRule : Option String
  manageRule : Option String
deriving DecidableEq, Repr

def Collection.isView (c : Collection) : Bool := c.ctype == .view

def Collection.isAuth (c : Collection) : Bool := c.ctype == .auth

/-- The name of the auth password field (`core.FieldNamePassword`). -/
def fieldNamePassword : String := "password"

/-- The caller context of one request (`core.RequestInfo`): superuser flag,
the optional authenticated record, the `filter` query parameter, the request
context tag (`"oauth2"` for OAuth2 sign-ups) and the submitted body. -/
structure RequestInfo where
  hasSuperuserAuth : Bool
  auth : Option String
  queryFilter : String
  context : String
  body : List (String × Val)
deriving DecidableEq, Repr

/-- A record: identity, the server-controlled `verified` flag and the
field→value data map (`core.Record`). -/
structure Record where
  id : String
  verified : Bool
  data : List (String × Val)
deriving DecidableEq, Repr

/-- Modelled from the spec: the record validation/coercion form
(`forms.RecordUpsert`, an external collaborator whose sources are not
provided) loads the submitted field→value mapping into the record; only the
parts this core inspects are modelled — the raw data map and the `verified`
flag coerced from a submitted boolean. -/
def Record.load (r : Record) (data : List (String × Val)) : Record :=
  { r with
    verified :=
      match data.lookup "verified" with
      | some (.boolean b) => b
      | _ => r.verified
    data := data }

/-- API error classes produced by the handlers, with their messages
(`router.ApiError`).  `tooManyRequests` stands for the 429 returned by the
collection rate limiter, `filterError` for a raw rule-build error returned
as-is by `recordsList`, and `raw` for a low-level response-write error. -/
inductive ApiErr where
  | notFound (msg : String)
  | forbidden (msg : String)
  | badRequest (msg : String)
  | internal (msg : String)
  | tooManyRequests
  | filterError (msg : String)
  | raw (msg : String)
deriving DecidableEq, Repr

/-- The externally visible outcome of one handler invocation: an error, a JSON
response status, a no-content status, or `stopped` when a hook handler stopped
the chain without error (the handler returns nil without writing a response
itself). -/
inductive Outcome where
  | apiErr (e : ApiErr)
  | okJson (status : Nat)
  | noContent (status : Nat)
  | stopped
deriving DecidableEq, Repr

/-- Behaviour of the hook chain around a handler's success function
(`app.OnRecord*Request().Trigger(event, f)`): the chain either reaches `f`,
stops early without error (Trigger returns nil without running `f`), or a hook
handler returns an error (Trigger returns it without running `f`). -/
inductive HookMode where
  | proceed
  | stopNoError
  | stopError (e : ApiErr)
deriving DecidableEq, Repr

/-- A select query as the CRUD layer shapes it: the list of rule expressions
ANDed into its WHERE clause via `AndWhere` (empty = unfiltered). -/
structure SelectQuery where
  preds : List String
deriving DecidableEq, Repr

/-- `app.FindRecordById(collection, id, ruleFunc)`: find the row with the
given id, then keep it only if every rule predicate ANDed into the query
evaluates true on it (`evalPred` is the SQL semantics of a compiled rule
expression on a row). -/
def findRecordById (db : List Record) (recordId : String) (preds : List String)
    (evalPred : String → Record → Bool) : Option Record :=
  (db.find? (fun r => r.id == recordId)).filter
    (fun r => preds.all (fun p => evalPred p r))

/-- Modelled from the spec: `checkRateLimit` (middleware, not among the
provided sources) enforces a token-bucket rate limit; it returns a non-nil
error exactly when the bucket is already exhausted (the allowed number of
requests in the window has been exceeded). -/
def checkRateLimit (bucketExhausted : Bool) : Option ApiErr :=
  if bucketExhausted then some .tooManyRequests else none

/-- `randomizedThrottle(softMax)`: the slept duration in milliseconds.
`randInt` is the result of `cryptoRand.Int(Reader, softMax)` — `some r` with
`r < softMax` when the crypto source succeeds, `none` on error, in which case
the code falls back to sleeping exactly `softMax` milliseconds. -/
def randomizedThrottleTimeout (softMax : Nat) (randInt : Option Nat) : Nat :=
  match randInt with
  | some r => r
  | none => softMax

/-- `hasAuthManageAccess(app, requestInfo, collection, query)`: manage-access
escalation test.  `buildOk` is whether `search.FilterData(*manageRule).BuildExpr`
succeeds; `queryExec` is the result of `query.Limit(1).Row(&exists)` after the
rule expression was ANDed in (`.error` = query error, `.ok b` = the fetched
`exists` value). -/
def hasAuthManageAccess (collection : Collection) (requestInfo : Option RequestInfo)
    (buildOk : Bool) (queryExec : Except Unit Bool) : Bool :=
  if !collection.isAuth then
    false
  else
    match collection.manageRule with
    | none => false
    | some manageRule =>
      if manageRule == "" then
        false
      else
        match requestInfo with
        | none => false
        | some info =>
          match info.auth with
          | none => false
          | some _ =>
            if !buildOk then
              false
            else
              match queryExec with
              | .error _ => false
              | .ok exists_ => exists_

/-- One iteration of the hidden-field deletion loop of
`recordDataFromRequest`: delete the entry named after a field marked hidden —
except the `password` field of auth collections. -/
def hiddenStep (collection : Collection) (acc : List (String × Val))
    (f : Field) : List (String × Val) :=
  if f.hidden then
    if collection.isAuth && f.name == fieldNamePassword then
      acc
    else
      acc.filter (fun kv => kv.1 != f.name)
  else
    acc

/-- The hidden-field deletion loop at the end of `recordDataFromRequest`:
for non-superusers, delete from the result every entry named after a field
marked hidden — except the `password` field of auth collections. -/
def unsetHiddenFields (info : RequestInfo) (collection : Collection)
    (result : List (String × Val)) : List (String × Val) :=
  if !info.hasSuperuserAuth then
    collection.fields.foldl (hiddenStep collection) result
  else
    result

/-- `recordDataFromRequest(e, record)` on the non-multipart path (no uploaded
files, so `extractUploadedFiles` contributes nothing): resolve modifiers over
the submitted body (`record.ReplaceModifiers`, an external record method kept
abstract as `replaceModifiers`), then unset hidden fields for non-superusers. -/
def recordDataFromRequest (info : RequestInfo) (collection : Collection)
    (replaceModifiers : List (String × Val) → List (String × Val)) :
    List (String × Val) :=
  unsetHiddenFields info collection (replaceModifiers info.body)

/-! ### `recordsList` -/

/-- Environment of one `recordsList` invocation: the results of every external
call the handler makes, in source order. -/
structure ListEnv where
  /-- `checkCollectionRateLimit(e, collection, "list")` returned an error. -/
  rateLimitErr : Bool
  /-- `e.RequestInfo()` result (`none` = error). -/
  requestInfo : Option RequestInfo
  /-- Modelled from the spec: `checkForSuperuserOnlyRuleFields` (not among the
  provided sources) rejects client filter/sort references to superuser-only
  fields with a 400-class error; whether it errors is an environment input. -/
  superuserOnlyFieldsErr : Bool
  /-- Whether `search.FilterData(rule).BuildExpr(fieldsResolver)` succeeds. -/
  buildOk : String → Bool
  /-- `searchProvider.ParseAndExec` over the assembled query: error, or the
  fetched record page. -/
  execSearch : SelectQuery → Except Unit (List Record)
  /-- The `OnRecordsListRequest` hook chain behaviour. -/
  hook : HookMode
  /-- `EnrichRecords` succeeds. -/
  enrichOk : Bool
  /-- The timing rate-limit bucket `"@hb_list_timing_check_" + collection.Id`
  (3 requests / 3 seconds) is already exhausted. -/
  timingBucketExhausted : Bool
  /-- `cryptoRand.Int(Reader, 150)` result (`some r`, `r < 150`, on success). -/
  randInt : Option Nat
  /-- `e.JSON(http.StatusOK, e.Result)` succeeds. -/
  respondOk : Bool

/-- Result of `recordsList`: outcome plus the security-relevant trace — the
query handed to `ParseAndExec` (if execution was reached), the
`SetAllowHiddenFields` argument (if reached), and the throttle sleep in
milliseconds (if triggered). -/
structure ListOut where
  outcome : Outcome
  executedQuery : Option SelectQuery
  allowHiddenFields : Option Bool
  sleptMs : Option Nat
deriving DecidableEq, Repr

/-- `recordsList(e)`.  `collection` is the result of
`FindCachedCollectionByNameOrId` (`none` = error or missing). -/
def recordsList (collection : Option Collection) (env : ListEnv) : ListOut :=
  match collection with
  | none => ⟨.apiErr (.notFound "Missing collection context."), none, none, none⟩
  | some collection =>
    if env.rateLimitErr then
      ⟨.apiErr .tooManyRequests, none, none, none⟩
    else
      match env.requestInfo with
      | none => ⟨.apiErr (.badRequest ""), none, none, none⟩
      | some requestInfo =>
        if collection.listRule.isNone && !requestInfo.hasSuperuserAuth then
          ⟨.apiErr (.forbidden "Only superusers can perform this action."), none, none, none⟩
        else if env.superuserOnlyFieldsErr then
          ⟨.apiErr (.badRequest "Only superusers can filter by this field."), none, none, none⟩
        else
          -- query := app.RecordQuery(collection); AndWhere the compiled
          -- ListRule for non-superusers when it is a non-empty string
          let ruleExpr : Except Unit (List String) :=
            match collection.listRule with
            | some r =>
              if !requestInfo.hasSuperuserAuth && r != "" then
                if env.buildOk r then .ok [r] else .error ()
              else
                .ok []
            | none => .ok []
          match ruleExpr with
          | .error _ => ⟨.apiErr (.filterError "list rule build error"), none, none, none⟩
          | .ok preds =>
            let query : SelectQuery := ⟨preds⟩
            -- hidden fields are searchable only by superusers
            let allowHidden := requestInfo.hasSuperuserAuth
            match env.execSearch query with
            | .error _ => ⟨.apiErr (.badRequest ""), some query, some allowHidden, none⟩
            | .ok records =>
              match env.hook with
              | .stopError e => ⟨.apiErr e, some query, some allowHidden, none⟩
              | .stopNoError => ⟨.stopped, some query, some allowHidden, none⟩
              | .proceed =>
                if !env.enrichOk then
                  ⟨.apiErr (.internal "Failed to enrich records"), some query, some allowHidden, none⟩
                else
                  -- randomized throttle on too many failed filtered searches
                  let throttled :=
                    !requestInfo.hasSuperuserAuth &&
                    (match collection.listRule with
                     | some r => r != ""
                     | none => false) &&
                    requestInfo.queryFilter != "" &&
                    records.length == 0 &&
                    (checkRateLimit env.timingBucketExhausted).isSome
                  let slept :=
                    if throttled then some (randomizedThrottleTimeout 150 env.randInt) else none
                  if env.respondOk then
                    ⟨.okJson 200, some query, some allowHidden, slept⟩
                  else
                    ⟨.apiErr (.raw "response write error"), some query, some allowHidden, slept⟩

/-! ### `recordView` -/

/-- Environment of one `recordView` invocation. -/
structure ViewEnv where
  /-- `checkCollectionRateLimit(e, collection, "view")` returned an error. -/
  rateLimitErr : Bool
  /-- The `{id}` path value. -/
  recordId : String
  /-- `e.RequestInfo()` result (`none` = error). -/
  requestInfo : Option RequestInfo
  /-- Whether `BuildExpr` on the view rule succeeds. -/
  buildOk : String → Bool
  /-- The collection's rows. -/
  db : List Record
  /-- SQL semantics of a compiled rule predicate on a row. -/
  evalPred : String → Record → Bool
  /-- The `OnRecordViewRequest` hook chain behaviour. -/
  hook : HookMode
  /-- `EnrichRecord` succeeds. -/
  enrichOk : Bool
  /-- `e.JSON(http.StatusOK, e.Record)` succeeds. -/
  respondOk : Bool

/-- `recordView(e)`. -/
def recordView (collection : Option Collection) (env : ViewEnv) : Outcome :=
  match collection with
  | none => .apiErr (.notFound "Missing collection context.")
  | some collection =>
    if env.rateLimitErr then
      .apiErr .tooManyRequests
    else if env.recordId == "" then
      .apiErr (.notFound "")
    else
      match env.requestInfo with
      | none => .apiErr (.badRequest "")
      | some requestInfo =>
        if collection.viewRule.isNone && !requestInfo.hasSuperuserAuth then
          .apiErr (.forbidden "Only superusers can perform this action.")
        else
          -- ruleFunc: AND the compiled ViewRule for non-superusers when it is
          -- a non-empty string; a build error propagates out of FindRecordById
          let ruleExpr : Except Unit (List String) :=
            match collection.viewRule with
            | some r =>
              if !requestInfo.hasSuperuserAuth && r != "" then
                if env.buildOk r then .ok [r] else .error ()
              else
                .ok []
            | none => .ok []
          match ruleExpr with
          | .error _ => .apiErr (.notFound "")
          | .ok preds =>
            match findRecordById env.db env.recordId preds env.evalPred with
            | none => .apiErr (.notFound "")
            | some _record =>
              match env.hook with
              | .stopError e => .apiErr e
              | .stopNoError => .stopped
              | .proceed =>
                if !env.enrichOk then
                  .apiErr (.internal "Failed to enrich record")
                else if env.respondOk then
                  .okJson 200
                else
                  .apiErr (.raw "response write error")

/-! ### `recordDelete` -/

/-- Environment of one `recordDelete` invocation. -/
structure DeleteEnv where
  /-- `checkCollectionRateLimit(e, collection, "delete")` returned an error. -/
  rateLimitErr : Bool
  /-- The `{id}` path value. -/
  recordId : String
  /-- `e.RequestInfo()` result (`none` = error). -/
  requestInfo : Option RequestInfo
  /-- Whether `BuildExpr` on the delete rule succeeds. -/
  buildOk : String → Bool
  /-- The collection's rows. -/
  db : List Record
  /-- SQL semantics of a compiled rule predicate on a row. -/
  evalPred : String → Record → Bool
  /-- The `OnRecordDeleteRequest` hook chain behaviour. -/
  hook : HookMode
  /-- `e.App.Delete(e.Record)` succeeds. -/
  deleteOk : Bool
  /-- `e.NoContent(http.StatusNoContent)` succeeds. -/
  respondOk : Bool
  /-- A non-nil `optFinalizer` was registered. -/
  hasFinalizer : Bool
  /-- The finalizer call returns without error. -/
  finalizerOk : Bool

/-- Result of `recordDelete`: outcome plus the number of times the registered
`optFinalizer` was invoked. -/
structure DeleteOut where
  outcome : Outcome
  finCount : Nat
deriving DecidableEq, Repr

/-- `recordDelete(optFinalizer)(e)`. -/
def recordDelete (collection : Option Collection) (env : DeleteEnv) : DeleteOut :=
  match collection with
  | none => ⟨.apiErr (.notFound "Missing collection context."), 0⟩
  | some collection =>
    if collection.isView then
      ⟨.apiErr (.badRequest "Unsupported collection type."), 0⟩
    else if env.rateLimitErr then
      ⟨.apiErr .tooManyRequests, 0⟩
    else if env.recordId == "" then
      ⟨.apiErr (.notFound ""), 0⟩
    else
      match env.requestInfo with
      | none => ⟨.apiErr (.badRequest ""), 0⟩
      | some requestInfo =>
        if !requestInfo.hasSuperuserAuth && collection.deleteRule.isNone then
          ⟨.apiErr (.forbidden "Only superusers can perform this action."), 0⟩
        else
          let ruleExpr : Except Unit (List String) :=
            match collection.deleteRule with
            | some r =>
              if !requestInfo.hasSuperuserAuth && r != "" then
                if env.buildOk r then .ok [r] else .error ()
              else
                .ok []
            | none => .ok []
          match ruleExpr with
          | .error _ => ⟨.apiErr (.notFound ""), 0⟩
          | .ok preds =>
            match findRecordById env.db env.recordId preds env.evalPred with
            | none => ⟨.apiErr (.notFound ""), 0⟩
            | some _record =>
              match env.hook with
              | .stopError e =>
                -- hookErr != nil → returned before the post-hook finalizer
                ⟨.apiErr e, 0⟩
              | .stopNoError =>
                -- chain stopped early without error: run the finalizer once
                if env.hasFinalizer then
                  if env.finalizerOk then ⟨.stopped, 1⟩
                  else ⟨.apiErr (.internal ""), 1⟩
                else
                  ⟨.stopped, 0⟩
              | .proceed =>
                if !env.deleteOk then
                  ⟨.apiErr (.badRequest "Failed to delete record. Make sure that the record is not part of a required relation reference."), 0⟩
                else if !env.respondOk then
                  ⟨.apiErr (.raw "response write error"), 0⟩
                else if env.hasFinalizer then
                  -- isOptFinalizerCalled = true
                  if env.finalizerOk then ⟨.noContent 204, 1⟩
                  else ⟨.apiErr (.internal ""), 1⟩
                else
                  ⟨.noContent 204, 0⟩

/-! ### `recordUpdate` -/

/-- Environment of one `recordUpdate` invocation. -/
structure UpdateEnv where
  /-- `checkCollectionRateLimit(e, collection, "update")` returned an error. -/
  rateLimitErr : Bool
  /-- The `{id}` path value. -/
  recordId : String
  /-- `e.RequestInfo()` result (`none` = error). -/
  requestInfo : Option RequestInfo
  /-- `record.ReplaceModifiers` (external record method) used inside
  `recordDataFromRequest`. -/
  replaceModifiers : List (String × Val) → List (String × Val)
  /-- `recordDataFromRequest` failed (file extraction error). -/
  extractFilesErr : Bool
  /-- The collection's rows. -/
  db : List Record
  /-- Whether `BuildExpr` on the update rule succeeds. -/
  buildOk : String → Bool
  /-- SQL semantics of a compiled rule predicate on a row. -/
  evalPred : String → Record → Bool
  /-- Whether `BuildExpr` on the manage rule succeeds. -/
  manageBuildOk : Bool
  /-- The manage-rule query over the real row: error, or the `exists` value. -/
  manageExec : Except Unit Bool
  /-- `form.Submit()` succeeds. -/
  submitOk : Bool
  /-- `EnrichRecord` succeeds. -/
  enrichOk : Bool
  /-- `e.JSON(http.StatusOK, e.Record)` succeeds. -/
  respondOk : Bool
  /-- The `OnRecordUpdateRequest` hook chain behaviour. -/
  hook : HookMode
  /-- A non-nil `optFinalizer` was registered. -/
  hasFinalizer : Bool
  /-- The finalizer call returns without error. -/
  finalizerOk : Bool

/-- Result of `recordUpdate`: outcome, finalizer invocation count, and whether
manager access was granted to the form by `hasAuthManageAccess`. -/
structure UpdateOut where
  outcome : Outcome
  finCount : Nat
  manageGranted : Bool
deriving DecidableEq, Repr

/-- `recordUpdate(optFinalizer)(e)`.  The form's initial `HasManageAccess` is
superuser access (`GrantSuperuserAccess` implies manage access), so the
escalation check runs exactly for callers without it. -/
def recordUpdate (collection : Option Collection) (env : UpdateEnv) : UpdateOut :=
  match collection with
  | none => ⟨.apiErr (.notFound "Missing collection context."), 0, false⟩
  | some collection =>
    if collection.isView then
      ⟨.apiErr (.badRequest "Unsupported collection type."), 0, false⟩
    else if env.rateLimitErr then
      ⟨.apiErr .tooManyRequests, 0, false⟩
    else if env.recordId == "" then
      ⟨.apiErr (.notFound ""), 0, false⟩
    else
      match env.requestInfo with
      | none => ⟨.apiErr (.badRequest ""), 0, false⟩
      | some requestInfo =>
        if !requestInfo.hasSuperuserAuth && collection.updateRule.isNone then
          ⟨.apiErr (.forbidden "Only superusers can perform this action."), 0, false⟩
        else
          -- eager fetch without access checks, to resolve modifier values
          match findRecordById env.db env.recordId [] env.evalPred with
          | none => ⟨.apiErr (.notFound ""), 0, false⟩
          | some _eager =>
            if env.extractFilesErr then
              ⟨.apiErr (.badRequest "Failed to read the submitted data."), 0, false⟩
            else
              let ruleExpr : Except Unit (List String) :=
                match collection.updateRule with
                | some r =>
                  if !requestInfo.hasSuperuserAuth && r != "" then
                    if env.buildOk r then .ok [r] else .error ()
                  else
                    .ok []
                | none => .ok []
              match ruleExpr with
              | .error _ => ⟨.apiErr (.notFound ""), 0, false⟩
              | .ok preds =>
                -- refetch with access checks
                match findRecordById env.db env.recordId preds env.evalPred with
                | none => ⟨.apiErr (.notFound ""), 0, false⟩
                | some _record =>
                  match env.hook with
                  | .stopError e => ⟨.apiErr e, 0, false⟩
                  | .stopNoError =>
                    if env.hasFinalizer then
                      if env.finalizerOk then ⟨.stopped, 1, false⟩
                      else ⟨.apiErr (.internal ""), 1, false⟩
                    else
                      ⟨.stopped, 0, false⟩
                  | .proceed =>
                    let granted :=
                      !requestInfo.hasSuperuserAuth &&
                      hasAuthManageAccess collection (some requestInfo)
                        env.manageBuildOk env.manageExec
                    if !env.submitOk then
                      ⟨.apiErr (.badRequest "Failed to update record."), 0, granted⟩
                    else if !env.enrichOk then
                      ⟨.apiErr (.internal "Failed to enrich record"), 0, granted⟩
                    else if !env.respondOk then
                      ⟨.apiErr (.raw "response write error"), 0, granted⟩
                    else if env.hasFinalizer then
                      if env.finalizerOk then ⟨.okJson 200, 1, granted⟩
                      else ⟨.apiErr (.internal ""), 1, granted⟩
                    else
                      ⟨.okJson 200, 0, granted⟩

/-! ### `recordCreate` -/

/-- Environment of one `recordCreate` invocation. -/
structure CreateEnv where
  /-- `checkCollectionRateLimit(e, collection, "create")` returned an error. -/
  rateLimitErr : Bool
  /-- `e.RequestInfo()` result (`none` = error). -/
  requestInfo : Option RequestInfo
  /-- `record.ReplaceModifiers` (external record method) used inside
  `recordDataFromRequest`. -/
  replaceModifiers : List (String × Val) → List (String × Val)
  /-- `recordDataFromRequest` failed (file extraction error). -/
  extractFilesErr : Bool
  /-- `security.RandomString(30)` for the OAuth2 random-password branch. -/
  randomPassword : String
  /-- `security.PseudorandomString(6)` suffix of the dummy alias. -/
  randSuffix : String
  /-- `dummyRecord.DBExport(e.App)`: error, or the exported column→value map. -/
  dbExport : Record → Except Unit (List (String × Val))
  /-- Whether `BuildExpr` on the create rule succeeds. -/
  createBuildOk : String → Bool
  /-- The create-rule query over the hypothetical row standing in for the
  table: error, or the fetched `exists` value. -/
  createRuleExec : Record → Except Unit Bool
  /-- Whether `BuildExpr` on the manage rule succeeds. -/
  manageBuildOk : Bool
  /-- The manage-rule query over the hypothetical row. -/
  manageExec : Record → Except Unit Bool
  /-- `form.Submit()` succeeds. -/
  submitOk : Bool
  /-- `EnrichRecord` succeeds. -/
  enrichOk : Bool
  /-- `e.JSON(http.StatusOK, e.Record)` succeeds. -/
  respondOk : Bool
  /-- The `OnRecordCreateRequest` hook chain behaviour. -/
  hook : HookMode
  /-- A non-nil `optFinalizer` was registered. -/
  hasFinalizer : Bool
  /-- The finalizer call returns without error. -/
  finalizerOk : Bool

/-- The record a create request loads from the submitted data: a fresh record
of the collection (`core.NewRecord`), loaded with `recordDataFromRequest`'s
result after the OAuth2 random-password adjustment. -/
def createLoadedRecord (collection : Collection) (requestInfo : RequestInfo)
    (env : CreateEnv) : Record :=
  let data := recordDataFromRequest requestInfo collection env.replaceModifiers
  let data :=
    if requestInfo.context == "oauth2" && (data.lookup fieldNamePassword).isNone then
      data ++ [(fieldNamePassword, .str env.randomPassword),
               (fieldNamePassword ++ "Confirm", .str env.randomPassword)]
    else
      data
  Record.load ⟨"", false, []⟩ data

/-- The hypothetical (dummy) record the create and manage rules are checked
against: a clone of the loaded record, with a synthetic id when it has none,
and with the `verified` field forced to `false`. -/
def mkDummyRecord (record : Record) (randSuffix : String) : Record :=
  let dummyRandomPart := "__hb_create__" ++ randSuffix
  let d := if record.id == "" then { record with id := "__temp_id__" ++ dummyRandomPart } else record
  { d with verified := false }

/-- Result of `recordCreate`: outcome, finalizer invocation count, the
hypothetical record the create/manage rules were evaluated against (if that
check ran), the record handed to `form.Submit` (if submission was reached),
and whether manager access was granted. -/
structure CreateOut where
  outcome : Outcome
  finCount : Nat
  checkedDummy : Option Record
  submitted : Option Record
  manageGranted : Bool
deriving DecidableEq, Repr

/-- Tail of the create success function from `form.Submit()` on: submit,
enrich, respond, then the inline finalizer call.  Returns the error the inner
function exits with (if any) and the updated trace. -/
def recordCreateFinish (env : CreateEnv) (record : Record)
    (checkedDummy : Option Record) (manageGranted : Bool) : CreateOut :=
  if !env.submitOk then
    ⟨.apiErr (.badRequest "Failed to create record"), 0, checkedDummy, some record, manageGranted⟩
  else if !env.enrichOk then
    ⟨.apiErr (.internal "Failed to enrich record"), 0, checkedDummy, some record, manageGranted⟩
  else if !env.respondOk then
    ⟨.apiErr (.raw "response write error"), 0, checkedDummy, some record, manageGranted⟩
  else if env.hasFinalizer then
    if env.finalizerOk then ⟨.okJson 200, 1, checkedDummy, some record, manageGranted⟩
    else ⟨.apiErr (.internal ""), 1, checkedDummy, some record, manageGranted⟩
  else
    ⟨.okJson 200, 0, checkedDummy, some record, manageGranted⟩

/-- The create success function (the closure passed to
`OnRecordCreateRequest().Trigger`): for non-superusers with a non-nil
`CreateRule`, build the hypothetical record, check the non-empty create rule
against it, check manage access against it, then submit. -/
def recordCreateInner (collection : Collection) (requestInfo : RequestInfo)
    (record : Record) (env : CreateEnv) : CreateOut :=
  if !requestInfo.hasSuperuserAuth && !collection.createRule.isNone then
    let dummyRecord := mkDummyRecord record env.randSuffix
    match env.dbExport dummyRecord with
    | .error _ =>
      ⟨.apiErr (.badRequest "Failed to create record"), 0, some dummyRecord, none, false⟩
    | .ok _dummyExport =>
      -- check non-empty create rule
      let ruleCheckErr : Bool :=
        match collection.createRule with
        | some r =>
          if r != "" then
            if !env.createBuildOk r then
              true
            else
              match env.createRuleExec dummyRecord with
              | .error _ => true
              | .ok exists_ => !exists_
          else
            false
        | none => false
      if ruleCheckErr then
        ⟨.apiErr (.badRequest "Failed to create record"), 0, some dummyRecord, none, false⟩
      else
        -- check for manage rule access (the dummy collection shares the
        -- original's type and ManageRule)
        let granted :=
          hasAuthManageAccess collection (some requestInfo)
            env.manageBuildOk (env.manageExec dummyRecord)
        recordCreateFinish env record (some dummyRecord) granted
  else
    recordCreateFinish env record none false

/-- `recordCreate(optFinalizer)(e)`. -/
def recordCreate (collection : Option Collection) (env : CreateEnv) : CreateOut :=
  match collection with
  | none => ⟨.apiErr (.notFound "Missing collection context."), 0, none, none, false⟩
  | some collection =>
    if collection.isView then
      ⟨.apiErr (.badRequest "Unsupported collection type."), 0, none, none, false⟩
    else if env.rateLimitErr then
      ⟨.apiErr .tooManyRequests, 0, none, none, false⟩
    else
      match env.requestInfo with
      | none => ⟨.apiErr (.badRequest ""), 0, none, none, false⟩
      | some requestInfo =>
        if !requestInfo.hasSuperuserAuth && collection.createRule.isNone then
          ⟨.apiErr (.forbidden "Only superusers can perform this action."), 0, none, none, false⟩
        else if env.extractFilesErr then
          ⟨.apiErr (.badRequest "Failed to read the submitted data."), 0, none, none, false⟩
        else
          let record := createLoadedRecord collection requestInfo env
          match env.hook with
          | .stopError e =>
            -- hookErr != nil → returned before the post-hook finalizer
            ⟨.apiErr e, 0, none, none, false⟩
          | .stopNoError =>
            -- chain stopped early without error: run the finalizer once
            if env.hasFinalizer then
              if env.finalizerOk then ⟨.stopped, 1, none, none, false⟩
              else ⟨.apiErr (.internal ""), 1, none, none, false⟩
            else
              ⟨.stopped, 0, none, none, false⟩
          | .proceed =>
            recordCreateInner collection requestInfo record env

/-! ## Helper lemmas -/

theorem lookup_filter_self_eq_none (k : String) (l : List (String × Val)) :
    (l.filter (fun kv => kv.1 != k)).lookup k = none := by
  induction l with
  | nil => rfl
  | cons hd tl ih =>
    obtain ⟨a, b⟩ := hd
    by_cases h : a = k
    · subst h
      simpa [List.filter_cons] using ih
    · have h' : ¬k = a := fun hh => h hh.symm
      have hkeep : ((a, b).1 != k) = true := by simpa [bne_iff_ne] using h
      simp [List.filter_cons, hkeep, List.lookup_cons, beq_false_of_ne h', ih]

theorem lookup_filter_of_none (k : String) (p : String × Val → Bool)
    (l : List (String × Val)) (h : l.lookup k = none) :
    (l.filter p).lookup k = none := by
  induction l with
  | nil => rfl
  | cons hd tl ih =>
    obtain ⟨a, b⟩ := hd
    rw [List.lookup_cons] at h
    by_cases hk : k = a
    · simp [hk] at h
    · have h' : tl.lookup k = none := by
        simpa [beq_false_of_ne hk] using h
      by_cases hp : p (a, b)
      · simp [List.filter_cons, hp, List.lookup_cons, beq_false_of_ne hk, ih h']
      · simp [List.filter_cons, hp, ih h']

theorem lookup_filter_ne_key (k m : String) (l : List (String × Val)) (h : k ≠ m) :
    (l.filter (fun kv => kv.1 != m)).lookup k = l.lookup k := by
  induction l with
  | nil => rfl
  | cons hd tl ih =>
    obtain ⟨a, b⟩ := hd
    by_cases hm : a = m
    · subst hm
      have hka : (k == a) = false := beq_false_of_ne h
      simp [List.filter_cons, List.lookup_cons, hka, ih]
    · have hkeep : ((a, b).1 != m) = true := by simpa [bne_iff_ne] using hm
      rw [show ((a, b) :: tl).filter (fun kv => kv.1 != m) =
            (a, b) :: tl.filter (fun kv => kv.1 != m) from by
            simp [List.filter_cons, hkeep],
          List.lookup_cons, List.lookup_cons, ih]

theorem foldl_hiddenStep_preserves_none (c : Collection) (k : String)
    (fs : List Field) (init : List (String × Val)) (h : init.lookup k = none) :
    (fs.foldl (hiddenStep c) init).lookup k = none := by
  induction fs generalizing init with
  | nil => exact h
  | cons f fs ih =>
    rw [List.foldl_cons]
    apply ih
    unfold hiddenStep
    split
    · split
      · exact h
      · exact lookup_filter_of_none _ _ _ h
    · exact h

theorem foldl_hiddenStep_removes (c : Collection) (f : Field) (fs : List Field)
    (init : List (String × Val)) (hmem : f ∈ fs) (hhid : f.hidden = true)
    (hexc : ¬(c.isAuth = true ∧ f.name = fieldNamePassword)) :
    (fs.foldl (hiddenStep c) init).lookup f.name = none := by
  induction fs generalizing init with
  | nil => cases hmem
  | cons g gs ih =>
    rw [List.foldl_cons]
    rcases List.mem_cons.mp hmem with rfl | hmem'
    · apply foldl_hiddenStep_preserves_none
      have hguard : (c.isAuth && (f.name == fieldNamePassword)) = false := by
        cases hA : c.isAuth
        · simp
        · have hne : f.name ≠ fieldNamePassword := fun hp => hexc ⟨hA, hp⟩
          simp [beq_false_of_ne hne]
      unfold hiddenStep
      rw [hhid, if_pos rfl, hguard, if_neg (by simp)]
      exact lookup_filter_self_eq_none _ _
    · exact ih _ hmem'

theorem foldl_hiddenStep_preserves_password (c : Collection) (hc : c.isAuth = true)
    (fs : List Field) (init : List (String × Val)) :
    (fs.foldl (hiddenStep c) init).lookup fieldNamePassword =
      init.lookup fieldNamePassword := by
  induction fs generalizing init with
  | nil => rfl
  | cons f fs ih =>
    rw [List.foldl_cons, ih]
    unfold hiddenStep
    split
    · by_cases hp : f.name = fieldNamePassword
      · simp [hc, hp]
      · have hguard : (c.isAuth && (f.name == fieldNamePassword)) = false := by
          simp [hc, beq_false_of_ne hp]
        rw [hguard, if_neg (by simp)]
        exact lookup_filter_ne_key _ _ _ (fun hk => hp hk.symm)
    · rfl

/-! ## Concrete fixtures (used by witnesses and counterexamples) -/

/-- An anonymous caller. -/
def infoAnon : RequestInfo :=
  { hasSuperuserAuth := false, auth := none, queryFilter := "", context := "", body := [] }

/-- An authenticated non-superuser caller with a client filter. -/
def infoUser : RequestInfo :=
  { hasSuperuserAuth := false, auth := some "user1", queryFilter := "title ~ x"
    context := "", body := [("title", .str "x"), ("verified", .boolean true)] }

/-- A superuser caller. -/
def infoSuper : RequestInfo :=
  { hasSuperuserAuth := true, auth := some "admin1", queryFilter := "", context := "", body := [] }

/-- A base collection with all rule slots absent. -/
def colNil : Collection :=
  { id := "c1", name := "posts", ctype := .base, fields := [⟨"title", false⟩]
    listRule := none, viewRule := none, createRule := none, updateRule := none
    deleteRule := none, manageRule := none }

/-- An auth collection with all rule slots set to non-empty expressions. -/
def colRules : Collection :=
  { id := "c2", name := "users", ctype := .auth
    fields := [⟨"title", false⟩, ⟨"password", true⟩, ⟨"tokenKey", true⟩]
    listRule := some "id ~ nonempty", viewRule := some "id ~ nonempty"
    createRule := some "id ~ nonempty", updateRule := some "id ~ nonempty"
    deleteRule := some "id ~ nonempty", manageRule := some "id ~ nonempty" }

/-- A base collection with all rule slots set to the empty string. -/
def colEmptyRules : Collection :=
  { id := "c3", name := "notes", ctype := .base, fields := [⟨"title", false⟩]
    listRule := some "", viewRule := some "", createRule := some ""
    updateRule := some "", deleteRule := some "", manageRule := some "" }

/-- A single stored row. -/
def rec1 : Record := { id := "r1", verified := false, data := [("title", .str "x")] }

/-- A benign list environment for an anonymous caller. -/
def listEnv0 : ListEnv :=
  { rateLimitErr := false, requestInfo := some infoAnon, superuserOnlyFieldsErr := false
    buildOk := fun _ => true, execSearch := fun _ => .ok [], hook := .proceed
    enrichOk := true, timingBucketExhausted := false, randInt := some 7, respondOk := true }

/-- A benign view environment for an anonymous caller. -/
def viewEnv0 : ViewEnv :=
  { rateLimitErr := false, recordId := "r1", requestInfo := some infoAnon
    buildOk := fun _ => true, db := [rec1], evalPred := fun _ _ => true
    hook := .proceed, enrichOk := true, respondOk := true }

/-- A benign create environment for an authenticated non-superuser caller. -/
def createEnv0 : CreateEnv :=
  { rateLimitErr := false, requestInfo := some infoUser, replaceModifiers := fun d => d
    extractFilesErr := false, randomPassword := "pw", randSuffix := "abcdef"
    dbExport := fun r => .ok r.data, createBuildOk := fun _ => true
    createRuleExec := fun _ => .ok true, manageBuildOk := true
    manageExec := fun _ => .ok false, submitOk := true, enrichOk := true
    respondOk := true, hook := .proceed, hasFinalizer := false, finalizerOk := true }

/-- A benign update environment for an authenticated non-superuser caller. -/
def updateEnv0 : UpdateEnv :=
  { rateLimitErr := false, recordId := "r1", requestInfo := some infoUser
    replaceModifiers := fun d => d, extractFilesErr := false, db := [rec1]
    buildOk := fun _ => true, evalPred := fun _ _ => true, manageBuildOk := true
    manageExec := .ok false, submitOk := true, enrichOk := true, respondOk := true
    hook := .proceed, hasFinalizer := false, finalizerOk := true }

/-- A benign delete environment for an anonymous caller. -/
def deleteEnv0 : DeleteEnv :=
  { rateLimitErr := false, recordId := "r1", requestInfo := some infoAnon
    buildOk := fun _ => true, db := [rec1], evalPred := fun _ _ => true
    hook := .proceed, deleteOk := true, respondOk := true
    hasFinalizer := false, finalizerOk := true }

/-! ## Claim theorems -/

/-- C3: `hasAuthManageAccess` returns true exactly when the target collection
is an auth collection, `ManageRule` is non-nil and non-empty, the caller is
authenticated (the request info and its auth record are present), the rule
expression builds without error, and the rule query executes without error and
yields true; in particular, for every caller it returns false whenever
`ManageRule` is nil or the empty string. -/
theorem C3_hasAuthManageAccess_characterization
    (c : Collection) (info : Option RequestInfo) (buildOk : Bool)
    (queryExec : Except Unit Bool) :
    (hasAuthManageAccess c info buildOk queryExec = true ↔
      (c.isAuth = true ∧
       (∃ mr, c.manageRule = some mr ∧ mr ≠ "") ∧
       (∃ i, info = some i ∧ ∃ a, i.auth = some a) ∧
       buildOk = true ∧ queryExec = .ok true)) ∧
    ((c.manageRule = none ∨ c.manageRule = some "") →
      hasAuthManageAccess c info buildOk queryExec = false) := by
  have hiff : hasAuthManageAccess c info buildOk queryExec = true ↔
      (c.isAuth = true ∧
       (∃ mr, c.manageRule = some mr ∧ mr ≠ "") ∧
       (∃ i, info = some i ∧ ∃ a, i.auth = some a) ∧
       buildOk = true ∧ queryExec = .ok true) := by
    unfold hasAuthManageAccess
    cases hA : c.isAuth
    · simp
    · cases hmr : c.manageRule with
      | none => simp
      | some mr =>
        by_cases hemp : mr = ""
        · subst hemp
          simp
        · cases info with
          | none => simp [beq_false_of_ne hemp]
          | some i =>
            cases hAuth : i.auth with
            | none => simp [beq_false_of_ne hemp, hAuth]
            | some a =>
              cases buildOk
              · simp [beq_false_of_ne hemp, hAuth]
              · cases queryExec with
                | error e => simp [beq_false_of_ne hemp, hAuth]
                | ok exists_ =>
                  cases exists_ <;> simp [beq_false_of_ne hemp, hAuth, hemp]
  refine ⟨hiff, fun h => ?_⟩
  cases hv : hasAuthManageAccess c info buildOk queryExec
  · rfl
  · exfalso
    obtain ⟨-, ⟨mr, hmr, hne⟩, -⟩ := hiff.mp hv
    rcases h with h | h <;> rw [h] at hmr
    · exact Option.noConfusion hmr
    · injection hmr with hh
      exact hne hh.symm

/-- C5: for every non-superuser request, the submitted-data map returned by
`recordDataFromRequest` contains no entry for any field marked hidden, with
the single exception of the `password` field on auth collections (whose entry
is preserved); and for list requests, hidden-field search resolution is
enabled exactly when the caller has superuser auth. -/
theorem C5_hidden_fields_excluded (info : RequestInfo) (c : Collection)
    (rm : List (String × Val) → List (String × Val)) :
    (info.hasSuperuserAuth = false →
      (∀ f ∈ c.fields, f.hidden = true →
        ¬(c.isAuth = true ∧ f.name = fieldNamePassword) →
        (recordDataFromRequest info c rm).lookup f.name = none) ∧
      (c.isAuth = true →
        (recordDataFromRequest info c rm).lookup fieldNamePassword =
          (rm info.body).lookup fieldNamePassword)) ∧
    (∀ (env : ListEnv) (col : Collection) (i : RequestInfo) (b : Bool),
      env.requestInfo = some i →
      (recordsList (some col) env).allowHiddenFields = some b →
      b = i.hasSuperuserAuth) := by
  constructor
  · intro hsu
    constructor
    · intro f hmem hhid hexc
      unfold recordDataFromRequest unsetHiddenFields
      rw [hsu]
      simpa using foldl_hiddenStep_removes c f c.fields (rm info.body) hmem hhid hexc
    · intro hA
      unfold recordDataFromRequest unsetHiddenFields
      rw [hsu]
      simpa using foldl_hiddenStep_preserves_password c hA c.fields (rm info.body)
  · intro env col i b hreq hout
    simp only [recordsList, hreq] at hout
    repeat' split at hout
    all_goals simp_all

/-- C1: for every collection whose rule slot for the requested operation is
absent (nil) and every non-superuser caller (including anonymous), each of
the five record operations list, view, create, update and delete returns a
403 ForbiddenError before any query or mutation is executed (the forbidden
outcome is forced for every database/hook environment, so nothing was
consulted); superuser callers are not rejected by this check — with superuser
auth each handler's result is independent of the rule slot altogether. -/
theorem C1_nil_rule_superusers_only :
    (∀ (c : Collection) (env : ListEnv) (info : RequestInfo),
      env.rateLimitErr = false → env.requestInfo = some info →
      info.hasSuperuserAuth = false → c.listRule = none →
      recordsList (some c) env =
        ⟨.apiErr (.forbidden "Only superusers can perform this action."), none, none, none⟩) ∧
    (∀ (c : Collection) (env : ViewEnv) (info : RequestInfo),
      env.rateLimitErr = false → env.recordId ≠ "" → env.requestInfo = some info →
      info.hasSuperuserAuth = false → c.viewRule = none →
      recordView (some c) env =
        .apiErr (.forbidden "Only superusers can perform this action.")) ∧
    (∀ (c : Collection) (env : CreateEnv) (info : RequestInfo),
      c.isView = false → env.rateLimitErr = false → env.requestInfo = some info →
      info.hasSuperuserAuth = false → c.createRule = none →
      recordCreate (some c) env =
        ⟨.apiErr (.forbidden "Only superusers can perform this action."), 0, none, none, false⟩) ∧
    (∀ (c : Collection) (env : UpdateEnv) (info : RequestInfo),
      c.isView = false → env.rateLimitErr = false → env.recordId ≠ "" →
      env.requestInfo = some info → info.hasSuperuserAuth = false →
      c.updateRule = none →
      recordUpdate (some c) env =
        ⟨.apiErr (.forbidden "Only superusers can perform this action."), 0, false⟩) ∧
    (∀ (c : Collection) (env : DeleteEnv) (info : RequestInfo),
      c.isView = false → env.rateLimitErr = false → env.recordId ≠ "" →
      env.requestInfo = some info → info.hasSuperuserAuth = false →
      c.deleteRule = none →
      recordDelete (some c) env =
        ⟨.apiErr (.forbidden "Only superusers can perform this action."), 0⟩) ∧
    (∀ (c : Collection) (env : ListEnv) (info : RequestInfo) (r r' : Option String),
      env.requestInfo = some info → info.hasSuperuserAuth = true →
      recordsList (some { c with listRule := r }) env =
        recordsList (some { c with listRule := r' }) env) ∧
    (∀ (c : Collection) (env : ViewEnv) (info : RequestInfo) (r r' : Option String),
      env.requestInfo = some info → info.hasSuperuserAuth = true →
      recordView (some { c with viewRule := r }) env =
        recordView (some { c with viewRule := r' }) env) ∧
    (∀ (c : Collection) (env : CreateEnv) (info : RequestInfo) (r r' : Option String),
      env.requestInfo = some info → info.hasSuperuserAuth = true →
      recordCreate (some { c with createRule := r }) env =
        recordCreate (some { c with createRule := r' }) env) ∧
    (∀ (c : Collection) (env : UpdateEnv) (info : RequestInfo) (r r' : Option String),
      env.requestInfo = some info → info.hasSuperuserAuth = true →
      recordUpdate (some { c with updateRule := r }) env =
        recordUpdate (some { c with updateRule := r' }) env) ∧
    (∀ (c : Collection) (env : DeleteEnv) (info : RequestInfo) (r r' : Option String),
      env.requestInfo = some info → info.hasSuperuserAuth = true →
      recordDelete (some { c with deleteRule := r }) env =
        recordDelete (some { c with deleteRule := r' }) env) := by
  refine ⟨?_, ?_, ?_, ?_, ?_, ?_, ?_, ?_, ?_, ?_⟩
  · intro c env info h1 h2 h3 h4
    simp [recordsList, h1, h2, h3, h4]
  · intro c env info h1 h2 h3 h4 h5
    simp [recordView, h1, beq_false_of_ne h2, h3, h4, h5]
  · intro c env info h0 h1 h2 h3 h4
    simp [recordCreate, h0, h1, h2, h3, h4]
  · intro c env info h0 h1 h2 h3 h4 h5
    simp [recordUpdate, h0, h1, beq_false_of_ne h2, h3, h4, h5]
  · intro c env info h0 h1 h2 h3 h4 h5
    simp [recordDelete, h0, h1, beq_false_of_ne h2, h3, h4, h5]
  · intro c env info r r' h1 h2
    cases r <;> cases r' <;> simp [recordsList, Collection.isView, h1, h2]
  · intro c env info r r' h1 h2
    cases r <;> cases r' <;> simp [recordView, Collection.isView, h1, h2]
  · intro c env info r r' h1 h2
    have hrec : ∀ (x : Option String),
        createLoadedRecord { c with createRule := x } info env =
          createLoadedRecord c info env := fun _ => rfl
    cases r <;> cases r' <;>
      simp [recordCreate, recordCreateInner, Collection.isView, h1, h2, hrec]
  · intro c env info r r' h1 h2
    cases r <;> cases r' <;>
      simp [recordUpdate, hasAuthManageAccess, Collection.isView, h1, h2]
  · intro c env info r r' h1 h2
    cases r <;> cases r' <;> simp [recordDelete, Collection.isView, h1, h2]

/-- Witness for C1 at concrete inputs: an anonymous caller against the
all-nil-rules collection is rejected with 403 by list and by delete. -/
theorem C1_witness :
    recordsList (some colNil) listEnv0 =
      ⟨.apiErr (.forbidden "Only superusers can perform this action."), none, none, none⟩ ∧
    recordDelete (some colNil) deleteEnv0 =
      ⟨.apiErr (.forbidden "Only superusers can perform this action."), 0⟩ :=
  ⟨C1_nil_rule_superusers_only.1 colNil listEnv0 infoAnon rfl rfl rfl rfl,
   C1_nil_rule_superusers_only.2.2.2.2.1 colNil deleteEnv0 infoAnon rfl rfl
     (by decide) rfl rfl rfl⟩

/-- C2: for every collection whose rule slot for the requested operation is
the empty string, every caller (any request info, superuser or not, including
anonymous) can perform that operation on every row: no rule predicate is
compiled or ANDed into the query — the list query executes unfiltered, and
view/create/update/delete succeed for arbitrary rule-predicate semantics. -/
theorem C2_empty_rule_unconditional :
    (∀ (c : Collection) (env : ListEnv) (info : RequestInfo) (recs : List Record),
      c.listRule = some "" → env.rateLimitErr = false →
      env.requestInfo = some info → env.superuserOnlyFieldsErr = false →
      env.execSearch ⟨[]⟩ = .ok recs → env.hook = .proceed →
      env.enrichOk = true → env.respondOk = true →
      recordsList (some c) env =
        ⟨.okJson 200, some ⟨[]⟩, some info.hasSuperuserAuth, none⟩) ∧
    (∀ (c : Collection) (env : ViewEnv) (info : RequestInfo) (rec : Record),
      c.viewRule = some "" → env.rateLimitErr = false → env.recordId ≠ "" →
      env.requestInfo = some info →
      env.db.find? (fun r => r.id == env.recordId) = some rec →
      env.hook = .proceed → env.enrichOk = true → env.respondOk = true →
      recordView (some c) env = .okJson 200) ∧
    (∀ (c : Collection) (env : CreateEnv) (info : RequestInfo),
      c.isView = false → c.createRule = some "" → env.rateLimitErr = false →
      env.requestInfo = some info → env.extractFilesErr = false →
      env.hook = .proceed →
      (∀ rec, env.dbExport rec = .ok rec.data) →
      env.submitOk = true → env.enrichOk = true → env.respondOk = true →
      env.hasFinalizer = false →
      (recordCreate (some c) env).outcome = .okJson 200) ∧
    (∀ (c : Collection) (env : UpdateEnv) (info : RequestInfo) (rec : Record),
      c.isView = false → c.updateRule = some "" → env.rateLimitErr = false →
      env.recordId ≠ "" → env.requestInfo = some info →
      env.db.find? (fun r => r.id == env.recordId) = some rec →
      env.extractFilesErr = false → env.hook = .proceed →
      env.submitOk = true → env.enrichOk = true → env.respondOk = true →
      env.hasFinalizer = false →
      (recordUpdate (some c) env).outcome = .okJson 200) ∧
    (∀ (c : Collection) (env : DeleteEnv) (info : RequestInfo) (rec : Record),
      c.isView = false → c.deleteRule = some "" → env.rateLimitErr = false →
      env.recordId ≠ "" → env.requestInfo = some info →
      env.db.find? (fun r => r.id == env.recordId) = some rec →
      env.hook = .proceed → env.deleteOk = true → env.respondOk = true →
      env.hasFinalizer = false →
      (recordDelete (some c) env).outcome = .noContent 204) := by
  refine ⟨?_, ?_, ?_, ?_, ?_⟩
  · intro c env info recs h1 h2 h3 h4 h5 h6 h7 h8
    cases hsu : info.hasSuperuserAuth <;>
      simp [recordsList, h1, h2, h3, h4, h5, h6, h7, h8, hsu]
  · intro c env info rec h1 h2 h3 h4 h5 h6 h7 h8
    cases hsu : info.hasSuperuserAuth <;>
      simp [recordView, findRecordById, Option.filter, h1, h2,
        beq_false_of_ne h3, h4, h5, h6, h7, h8, hsu]
  · intro c env info h0 h1 h2 h3 h4 h5 h6 h7 h8 h9 h10
    cases hsu : info.hasSuperuserAuth <;>
      simp [recordCreate, recordCreateInner, recordCreateFinish, h0, h1, h2,
        h3, h4, h5, h6, h7, h8, h9, h10, hsu]
  · intro c env info rec h0 h1 h2 h3 h4 h5 h6 h7 h8 h9 h10 h11
    cases hsu : info.hasSuperuserAuth <;>
      simp [recordUpdate, findRecordById, Option.filter, h0, h1, h2,
        beq_false_of_ne h3, h4, h5, h6, h7, h8, h9, h10, h11, hsu]
  · intro c env info rec h0 h1 h2 h3 h4 h5 h6 h7 h8 h9
    cases hsu : info.hasSuperuserAuth <;>
      simp [recordDelete, findRecordById, Option.filter, h0, h1, h2,
        beq_false_of_ne h3, h4, h5, h6, h7, h8, h9, hsu]

/-- Witness for C2 at concrete inputs: on the all-empty-rules collection an
anonymous caller lists unfiltered and deletes an existing row with 204. -/
theorem C2_witness :
    recordsList (some colEmptyRules) listEnv0 =
      ⟨.okJson 200, some ⟨[]⟩, some false, none⟩ ∧
    recordView (some colEmptyRules) viewEnv0 = .okJson 200 ∧
    (recordDelete (some colEmptyRules) deleteEnv0).outcome = .noContent 204 :=
  ⟨C2_empty_rule_unconditional.1 colEmptyRules listEnv0 infoAnon [] rfl rfl rfl
     rfl rfl rfl rfl rfl,
   C2_empty_rule_unconditional.2.1 colEmptyRules viewEnv0 infoAnon rec1 rfl rfl
     (by decide) rfl (by decide) rfl rfl rfl,
   C2_empty_rule_unconditional.2.2.2.2 colEmptyRules deleteEnv0 infoAnon rec1
     rfl rfl rfl (by decide) rfl (by decide) rfl rfl rfl rfl⟩

/-- A view-type collection. -/
def colView : Collection := { colNil with id := "c4", name := "stats", ctype := .view }

/-- C10: every create, update or delete request targeting a collection of
type view returns a 400 "Unsupported collection type." error immediately
after collection resolution — the result is forced for every environment, so
before rate limiting, body parsing or any rule evaluation; list and
single-record view requests perform no such check: their results are
invariant under the collection's type. -/
theorem C10_view_collections_reject_writes :
    (∀ (c : Collection) (env : CreateEnv), c.isView = true →
      recordCreate (some c) env =
        ⟨.apiErr (.badRequest "Unsupported collection type."), 0, none, none, false⟩) ∧
    (∀ (c : Collection) (env : UpdateEnv), c.isView = true →
      recordUpdate (some c) env =
        ⟨.apiErr (.badRequest "Unsupported collection type."), 0, false⟩) ∧
    (∀ (c : Collection) (env : DeleteEnv), c.isView = true →
      recordDelete (some c) env =
        ⟨.apiErr (.badRequest "Unsupported collection type."), 0⟩) ∧
    (∀ (c : Collection) (env : ListEnv) (t : CollectionType),
      recordsList (some { c with ctype := t }) env = recordsList (some c) env) ∧
    (∀ (c : Collection) (env : ViewEnv) (t : CollectionType),
      recordView (some { c with ctype := t }) env = recordView (some c) env) := by
  refine ⟨?_, ?_, ?_, ?_, ?_⟩
  · intro c env h
    simp [recordCreate, h]
  · intro c env h
    simp [recordUpdate, h]
  · intro c env h
    simp [recordDelete, h]
  · intro c env t
    rfl
  · intro c env t
    rfl

/-- Witness for C10 at concrete inputs: create and delete on a view-type
collection return the 400 "Unsupported collection type." error. -/
theorem C10_witness :
    recordCreate (some colView) createEnv0 =
      ⟨.apiErr (.badRequest "Unsupported collection type."), 0, none, none, false⟩ ∧
    recordDelete (some colView) deleteEnv0 =
      ⟨.apiErr (.badRequest "Unsupported collection type."), 0⟩ :=
  ⟨C10_view_collections_reject_writes.1 colView createEnv0 rfl,
   C10_view_collections_reject_writes.2.2.1 colView deleteEnv0 rfl⟩

/-- C7: for view, update and delete of a single record by a non-superuser
with a non-empty rule, a record id that matches no row and a record id whose
row exists but is filtered out by the compiled rule predicate produce the
identical externally visible outcome: a 404 NotFoundError with an empty
message. -/
theorem C7_absent_and_filtered_identical :
    (∀ (c : Collection) (env : ViewEnv) (info : RequestInfo) (r : String),
      env.rateLimitErr = false → env.recordId ≠ "" →
      env.requestInfo = some info → info.hasSuperuserAuth = false →
      c.viewRule = some r → r ≠ "" → env.buildOk r = true →
      (env.db.find? (fun x => x.id == env.recordId) = none →
        recordView (some c) env = .apiErr (.notFound "")) ∧
      (∀ rec, env.db.find? (fun x => x.id == env.recordId) = some rec →
        env.evalPred r rec = false →
        recordView (some c) env = .apiErr (.notFound ""))) ∧
    (∀ (c : Collection) (env : UpdateEnv) (info : RequestInfo) (r : String),
      c.isView = false → env.rateLimitErr = false → env.recordId ≠ "" →
      env.requestInfo = some info → info.hasSuperuserAuth = false →
      c.updateRule = some r → r ≠ "" → env.buildOk r = true →
      env.extractFilesErr = false →
      (env.db.find? (fun x => x.id == env.recordId) = none →
        (recordUpdate (some c) env).outcome = .apiErr (.notFound "")) ∧
      (∀ rec, env.db.find? (fun x => x.id == env.recordId) = some rec →
        env.evalPred r rec = false →
        (recordUpdate (some c) env).outcome = .apiErr (.notFound ""))) ∧
    (∀ (c : Collection) (env : DeleteEnv) (info : RequestInfo) (r : String),
      c.isView = false → env.rateLimitErr = false → env.recordId ≠ "" →
      env.requestInfo = some info → info.hasSuperuserAuth = false →
      c.deleteRule = some r → r ≠ "" → env.buildOk r = true →
      (env.db.find? (fun x => x.id == env.recordId) = none →
        (recordDelete (some c) env).outcome = .apiErr (.notFound "")) ∧
      (∀ rec, env.db.find? (fun x => x.id == env.recordId) = some rec →
        env.evalPred r rec = false →
        (recordDelete (some c) env).outcome = .apiErr (.notFound ""))) := by
  refine ⟨?_, ?_, ?_⟩
  · intro c env info r h1 h2 h3 h4 h5 h6 h7
    constructor
    · intro habsent
      simp [recordView, findRecordById, Option.filter, h1, beq_false_of_ne h2,
        h3, h4, h5, h6, h7, habsent]
    · intro rec hfound hpred
      simp [recordView, findRecordById, Option.filter, h1, beq_false_of_ne h2,
        h3, h4, h5, h6, h7, hfound, hpred]
  · intro c env info r h0 h1 h2 h3 h4 h5 h6 h7 h8
    constructor
    · intro habsent
      simp [recordUpdate, findRecordById, Option.filter, h0, h1,
        beq_false_of_ne h2, h3, h4, h5, h6, h7, h8, habsent]
    · intro rec hfound hpred
      simp [recordUpdate, findRecordById, Option.filter, h0, h1,
        beq_false_of_ne h2, h3, h4, h5, h6, h7, h8, hfound, hpred]
  · intro c env info r h0 h1 h2 h3 h4 h5 h6 h7
    constructor
    · intro habsent
      simp [recordDelete, findRecordById, Option.filter, h0, h1,
        beq_false_of_ne h2, h3, h4, h5, h6, h7, habsent]
    · intro rec hfound hpred
      simp [recordDelete, findRecordById, Option.filter, h0, h1,
        beq_false_of_ne h2, h3, h4, h5, h6, h7, hfound, hpred]

/-- A delete environment with a stored row whose compiled rule predicate
evaluates false, and another with an unknown record id. -/
def deleteEnvFiltered : DeleteEnv :=
  { deleteEnv0 with requestInfo := some infoUser, evalPred := fun _ _ => false }

def deleteEnvMissing : DeleteEnv :=
  { deleteEnv0 with requestInfo := some infoUser, recordId := "zzz" }

/-- Witness for C7 at concrete inputs: for delete with a non-empty rule, a
missing id and an existing-but-filtered-out row both yield 404 with empty
message. -/
theorem C7_witness :
    (recordDelete (some colRules) deleteEnvMissing).outcome =
      .apiErr (.notFound "") ∧
    (recordDelete (some colRules) deleteEnvFiltered).outcome =
      .apiErr (.notFound "") :=
  ⟨((C7_absent_and_filtered_identical.2.2 colRules deleteEnvMissing infoUser
      "id ~ nonempty" rfl rfl (by decide) rfl rfl rfl (by decide) rfl).1
      (by decide)),
   ((C7_absent_and_filtered_identical.2.2 colRules deleteEnvFiltered infoUser
      "id ~ nonempty" rfl rfl (by decide) rfl rfl rfl (by decide) rfl).2 rec1
      (by decide) rfl)⟩

theorem mkDummyRecord_verified (r : Record) (s : String) :
    (mkDummyRecord r s).verified = false := rfl

theorem mkDummyRecord_data (r : Record) (s : String) :
    (mkDummyRecord r s).data = r.data := by
  unfold mkDummyRecord
  split <;> rfl

theorem recordCreateInner_trace (c : Collection) (info : RequestInfo)
    (record : Record) (env : CreateEnv)
    (hsu : info.hasSuperuserAuth = false) (hcr : c.createRule.isNone = false) :
    (recordCreateInner c info record env).checkedDummy =
      some (mkDummyRecord record env.randSuffix) ∧
    (∀ rec, (recordCreateInner c info record env).submitted = some rec →
      rec = record) := by
  unfold recordCreateInner recordCreateFinish
  simp only [hsu, hcr, Bool.not_false, Bool.true_and, if_true]
  repeat' split
  all_goals simp_all

/-- C4: for every create request by a non-superuser on a collection with a
non-nil CreateRule, the hypothetical (dummy) record against which the create
and manage rules are evaluated has its verified field forced to false,
regardless of any verified value in the submitted data; the real record
handed to `form.Submit` is the loaded record, unaffected by the check. -/
theorem C4_dummy_record_verified_false
    (c : Collection) (env : CreateEnv) (info : RequestInfo) (r : String)
    (h0 : c.isView = false) (h1 : env.rateLimitErr = false)
    (h2 : env.requestInfo = some info) (h3 : info.hasSuperuserAuth = false)
    (h4 : c.createRule = some r) (h5 : env.extractFilesErr = false)
    (h6 : env.hook = .proceed) :
    (recordCreate (some c) env).checkedDummy =
      some (mkDummyRecord (createLoadedRecord c info env) env.randSuffix) ∧
    (∀ d, (recordCreate (some c) env).checkedDummy = some d →
      d.verified = false ∧ d.data = (createLoadedRecord c info env).data) ∧
    (∀ rec, (recordCreate (some c) env).submitted = some rec →
      rec = createLoadedRecord c info env) := by
  have hred : recordCreate (some c) env =
      recordCreateInner c info (createLoadedRecord c info env) env := by
    simp [recordCreate, h0, h1, h2, h3, h4, h5, h6]
  have htrace := recordCreateInner_trace c info (createLoadedRecord c info env)
    env h3 (by simp [h4])
  rw [hred]
  refine ⟨htrace.1, ?_, htrace.2⟩
  intro d hd
  rw [htrace.1] at hd
  injection hd with hd
  subst hd
  exact ⟨mkDummyRecord_verified _ _, mkDummyRecord_data _ _⟩

/-- A create environment whose submitted body claims `verified = true`. -/
def createEnvVerified : CreateEnv :=
  { createEnv0 with
    requestInfo := some { infoUser with body := [("verified", .boolean true)] } }

/-- Witness for C4 at a concrete input: even when the submitted data sets
`verified = true` (so the loaded record is verified), the dummy record used
for the rule checks has `verified = false`, and the submitted record is the
loaded (verified) one. -/
theorem C4_witness :
    (recordCreate (some colRules) createEnvVerified).checkedDummy =
      some (mkDummyRecord
        (createLoadedRecord colRules
          { infoUser with body := [("verified", .boolean true)] }
          createEnvVerified)
        createEnvVerified.randSuffix) ∧
    (∀ d, (recordCreate (some colRules) createEnvVerified).checkedDummy = some d →
      d.verified = false ∧
      d.data = (createLoadedRecord colRules
        { infoUser with body := [("verified", .boolean true)] }
        createEnvVerified).data) ∧
    (∀ rec, (recordCreate (some colRules) createEnvVerified).submitted = some rec →
      rec = createLoadedRecord colRules
        { infoUser with body := [("verified", .boolean true)] }
        createEnvVerified) :=
  C4_dummy_record_verified_false colRules createEnvVerified
    { infoUser with body := [("verified", .boolean true)] } "id ~ nonempty"
    rfl rfl rfl rfl rfl rfl rfl

/-- C6: for every non-superuser create request where the non-empty create
rule check fails — the rule expression fails to build, the rule query returns
an execution error, or the rule evaluates to false — the caller receives the
same generic 400 "Failed to create record" BadRequestError. -/
theorem C6_create_rule_failure_is_generic
    (c : Collection) (env : CreateEnv) (info : RequestInfo) (r : String)
    (h0 : c.isView = false) (h1 : env.rateLimitErr = false)
    (h2 : env.requestInfo = some info) (h3 : info.hasSuperuserAuth = false)
    (h4 : c.createRule = some r) (hr : r ≠ "") (h5 : env.extractFilesErr = false)
    (h6 : env.hook = .proceed)
    (hdb : ∀ rec, ∃ ex, env.dbExport rec = .ok ex) :
    (env.createBuildOk r = false →
      (recordCreate (some c) env).outcome =
        .apiErr (.badRequest "Failed to create record")) ∧
    ((∀ rec, env.createRuleExec rec = .error ()) →
      (recordCreate (some c) env).outcome =
        .apiErr (.badRequest "Failed to create record")) ∧
    ((∀ rec, env.createRuleExec rec = .ok false) →
      (recordCreate (some c) env).outcome =
        .apiErr (.badRequest "Failed to create record")) := by
  have hred : recordCreate (some c) env =
      recordCreateInner c info (createLoadedRecord c info env) env := by
    simp [recordCreate, h0, h1, h2, h3, h4, h5, h6]
  obtain ⟨ex, hex⟩ :=
    hdb (mkDummyRecord (createLoadedRecord c info env) env.randSuffix)
  refine ⟨fun hb => ?_, fun he => ?_, fun hf => ?_⟩
  · rw [hred]
    simp [recordCreateInner, h3, h4, hr, hex, hb]
  · rw [hred]
    simp [recordCreateInner, h3, h4, hr, hex, he]
  · rw [hred]
    simp [recordCreateInner, h3, h4, hr, hex, hf]

/-- A create environment whose create-rule query evaluates to false. -/
def createEnvRuleFalse : CreateEnv :=
  { createEnv0 with createRuleExec := fun _ => .ok false }

/-- Witness for C6 at a concrete input: a create whose rule query yields
false produces the generic 400 "Failed to create record". -/
theorem C6_witness :
    (recordCreate (some colRules) createEnvRuleFalse).outcome =
      .apiErr (.badRequest "Failed to create record") :=
  (C6_create_rule_failure_is_generic colRules createEnvRuleFalse infoUser
    "id ~ nonempty" rfl rfl rfl rfl rfl (by decide) rfl rfl
    (fun rec => ⟨rec.data, rfl⟩)).2.2 (fun _ => rfl)

/-- A delete environment with a registered finalizer whose hook chain
returns an error. -/
def deleteEnvHookErr : DeleteEnv :=
  { deleteEnv0 with hasFinalizer := true, hook := .stopError (.badRequest "hook failure") }

/-- A delete environment with a registered finalizer whose hook chain stops
early without error. -/
def deleteEnvStopNoErr : DeleteEnv :=
  { deleteEnv0 with hasFinalizer := true, hook := .stopNoError }

/-- C9 counterexample: a delete request that reaches the hook-trigger stage
with a non-nil optFinalizer and whose hook chain returns an error invokes the
finalizer zero times — not exactly once as the claim states ("never zero
times"): the handler returns the hook error before the post-trigger
finalizer block. -/
theorem C9_counterexample :
    deleteEnvHookErr.hasFinalizer = true ∧
    recordDelete (some colEmptyRules) deleteEnvHookErr =
      ⟨.apiErr (.badRequest "hook failure"), 0⟩ := by
  refine ⟨rfl, by decide⟩

set_option maxHeartbeats 1000000 in
set_option maxRecDepth 4096 in
theorem recordDelete_finCount_le_one (c : Option Collection) (env : DeleteEnv) :
    (recordDelete c env).finCount ≤ 1 := by
  cases c with
  | none => simp [recordDelete]
  | some c =>
    simp only [recordDelete]
    repeat' split
    all_goals simp

theorem recordCreateFinish_finCount_le_one (env : CreateEnv) (record : Record)
    (cd : Option Record) (mg : Bool) :
    (recordCreateFinish env record cd mg).finCount ≤ 1 := by
  unfold recordCreateFinish
  repeat' split
  all_goals simp

theorem recordCreateInner_finCount_le_one (c : Collection) (info : RequestInfo)
    (record : Record) (env : CreateEnv) :
    (recordCreateInner c info record env).finCount ≤ 1 := by
  unfold recordCreateInner
  repeat' split
  any_goals simp
  any_goals exact recordCreateFinish_finCount_le_one _ _ _ _
  any_goals (cases env.dbExport (mkDummyRecord record env.randSuffix) <;> simp)
  any_goals
    (rcases env.createRuleExec (mkDummyRecord record env.randSuffix) with _ | (_ | _) <;>
      first
        | simp
        | skip)
  all_goals first
    | simp
    | exact recordCreateFinish_finCount_le_one _ _ _ _

set_option maxHeartbeats 1000000 in
theorem recordCreate_finCount_le_one (c : Option Collection) (env : CreateEnv) :
    (recordCreate c env).finCount ≤ 1 := by
  cases c with
  | none => simp [recordCreate]
  | some c =>
    simp only [recordCreate]
    repeat' split
    all_goals first
      | simp
      | exact recordCreateInner_finCount_le_one _ _ _ _

set_option maxHeartbeats 1000000 in
theorem recordUpdate_finCount_le_one (c : Option Collection) (env : UpdateEnv) :
    (recordUpdate c env).finCount ≤ 1 := by
  cases c with
  | none => simp [recordUpdate]
  | some c =>
    simp only [recordUpdate]
    repeat' split
    all_goals simp

theorem recordCreateFinish_finCount_eq (env : CreateEnv) (record : Record)
    (cd : Option Record) (mg : Bool) :
    (recordCreateFinish env record cd mg).finCount =
      if env.submitOk && env.enrichOk && env.respondOk && env.hasFinalizer
      then 1 else 0 := by
  unfold recordCreateFinish
  cases env.submitOk <;> cases env.enrichOk <;> cases env.respondOk <;>
    cases env.hasFinalizer <;> cases env.finalizerOk <;> simp

theorem recordCreateFinish_finCount_eq_one_only (env : CreateEnv)
    (record : Record) (cd : Option Record) (mg : Bool)
    (h : (recordCreateFinish env record cd mg).finCount = 1) :
    env.hasFinalizer = true ∧ env.submitOk = true ∧ env.enrichOk = true ∧
      env.respondOk = true := by
  rw [recordCreateFinish_finCount_eq] at h
  split at h
  · rename_i hcond
    simp only [Bool.and_eq_true] at hcond
    exact ⟨hcond.2, hcond.1.1.1, hcond.1.1.2, hcond.1.2⟩
  · exact absurd h (by simp)

set_option maxHeartbeats 1000000 in
theorem recordDelete_finCount_eq_one_only (c : Option Collection)
    (env : DeleteEnv) (h : (recordDelete c env).finCount = 1) :
    env.hasFinalizer = true ∧
      (env.hook = .stopNoError ∨
        (env.hook = .proceed ∧ env.deleteOk = true ∧ env.respondOk = true)) := by
  cases c with
  | none => simp [recordDelete] at h
  | some c =>
    simp only [recordDelete] at h
    repeat' split at h
    all_goals simp_all

theorem recordCreateInner_finCount_eq_one_only (c : Collection)
    (info : RequestInfo) (record : Record) (env : CreateEnv) :
    (recordCreateInner c info record env).finCount = 1 →
      env.submitOk = true ∧ env.enrichOk = true ∧ env.respondOk = true ∧
        env.hasFinalizer = true := by
  unfold recordCreateInner
  repeat' split
  any_goals simp
  any_goals
    exact fun h => by
      obtain ⟨hf, hs, he, hr⟩ := recordCreateFinish_finCount_eq_one_only _ _ _ _ h
      exact ⟨hs, he, hr, hf⟩
  any_goals (cases env.dbExport (mkDummyRecord record env.randSuffix) <;> simp)
  any_goals
    (rcases env.createRuleExec (mkDummyRecord record env.randSuffix) with _ | (_ | _) <;>
      first
        | simp
        | skip)
  all_goals first
    | simp
    | exact fun h => by
        obtain ⟨hf, hs, he, hr⟩ := recordCreateFinish_finCount_eq_one_only _ _ _ _ h
        exact ⟨hs, he, hr, hf⟩

set_option maxHeartbeats 1000000 in
theorem recordCreate_finCount_eq_one_only (c : Option Collection)
    (env : CreateEnv) (h : (recordCreate c env).finCount = 1) :
    env.hasFinalizer = true ∧
      (env.hook = .stopNoError ∨
        (env.hook = .proceed ∧ env.submitOk = true ∧ env.enrichOk = true ∧
         env.respondOk = true)) := by
  cases c with
  | none => simp [recordCreate] at h
  | some c =>
    simp only [recordCreate] at h
    repeat' split at h
    all_goals first
      | (obtain ⟨hs, he, hr, hf⟩ := recordCreateInner_finCount_eq_one_only _ _ _ _ h
         exact ⟨hf, Or.inr ⟨by assumption, hs, he, hr⟩⟩)
      | simp_all

set_option maxHeartbeats 1000000 in
theorem recordUpdate_finCount_eq_one_only (c : Option Collection)
    (env : UpdateEnv) (h : (recordUpdate c env).finCount = 1) :
    env.hasFinalizer = true ∧
      (env.hook = .stopNoError ∨
        (env.hook = .proceed ∧ env.submitOk = true ∧ env.enrichOk = true ∧
         env.respondOk = true)) := by
  cases c with
  | none => simp [recordUpdate] at h
  | some c =>
    simp only [recordUpdate] at h
    repeat' split at h
    all_goals simp_all

set_option maxHeartbeats 2000000 in
theorem recordDelete_hook_stage_finCount (c : Collection) (env : DeleteEnv)
    (info : RequestInfo) (rec : Record) (preds : List String)
    (h0 : c.isView = false) (h1 : env.rateLimitErr = false)
    (h2 : env.recordId ≠ "") (h3 : env.requestInfo = some info)
    (hforbid : ¬(info.hasSuperuserAuth = false ∧ c.deleteRule = none))
    (hpreds : (match c.deleteRule with
        | some r =>
          if !info.hasSuperuserAuth && r != "" then
            if env.buildOk r then Except.ok [r] else Except.error ()
          else Except.ok []
        | none => (Except.ok [] : Except Unit (List String))) = Except.ok preds)
    (hfound : findRecordById env.db env.recordId preds env.evalPred = some rec) :
    (recordDelete (some c) env).finCount =
      match env.hook with
      | .stopError _ => 0
      | .stopNoError => if env.hasFinalizer then 1 else 0
      | .proceed =>
        if env.deleteOk && env.respondOk && env.hasFinalizer then 1 else 0 := by
  rcases hdr : c.deleteRule with _ | r
  · cases hsu : info.hasSuperuserAuth with
    | false => exact absurd ⟨hsu, hdr⟩ hforbid
    | true =>
      rw [hdr] at hpreds
      injection hpreds with hp
      subst hp
      cases hhk : env.hook <;> cases hhf : env.hasFinalizer <;>
        cases hfk : env.finalizerOk <;> cases hdo : env.deleteOk <;>
          cases hro : env.respondOk <;>
            simp [recordDelete, h0, h1, beq_false_of_ne h2, h3, hsu, hdr,
              hfound, hhk, hhf, hfk, hdo, hro]
  · rw [hdr] at hpreds
    cases hsu : info.hasSuperuserAuth with
    | true =>
      rw [hsu] at hpreds
      simp only [Bool.not_true, Bool.false_and, Bool.false_eq_true,
        if_false] at hpreds
      injection hpreds with hp
      subst hp
      cases hhk : env.hook <;> cases hhf : env.hasFinalizer <;>
        cases hfk : env.finalizerOk <;> cases hdo : env.deleteOk <;>
          cases hro : env.respondOk <;>
            simp [recordDelete, h0, h1, beq_false_of_ne h2, h3, hsu, hdr,
              hfound, hhk, hhf, hfk, hdo, hro]
    | false =>
      rw [hsu] at hpreds
      by_cases hre : r = ""
      · subst hre
        simp only [bne_self_eq_false, Bool.and_false, Bool.false_eq_true,
          if_false] at hpreds
        injection hpreds with hp
        subst hp
        cases hhk : env.hook <;> cases hhf : env.hasFinalizer <;>
          cases hfk : env.finalizerOk <;> cases hdo : env.deleteOk <;>
            cases hro : env.respondOk <;>
              simp [recordDelete, h0, h1, beq_false_of_ne h2, h3, hsu, hdr,
                hfound, hhk, hhf, hfk, hdo, hro]
      · cases hb : env.buildOk r with
        | false =>
          simp [hre, hb] at hpreds
        | true =>
          simp [hre, hb] at hpreds
          subst hpreds
          cases hhk : env.hook <;> cases hhf : env.hasFinalizer <;>
            cases hfk : env.finalizerOk <;> cases hdo : env.deleteOk <;>
              cases hro : env.respondOk <;>
                simp [recordDelete, h0, h1, beq_false_of_ne h2, h3, hsu, hdr,
                  hre, hb, hfound, hhk, hhf, hfk, hdo, hro]

set_option maxHeartbeats 1000000 in
theorem recordCreate_hook_stage_finCount (c : Collection) (env : CreateEnv)
    (info : RequestInfo)
    (h0 : c.isView = false) (h1 : env.rateLimitErr = false)
    (h2 : env.requestInfo = some info)
    (hforbid : ¬(info.hasSuperuserAuth = false ∧ c.createRule = none))
    (h4 : env.extractFilesErr = false)
    (hdb : ∀ rec, ∃ ex, env.dbExport rec = .ok ex)
    (hrulepass : ∀ rec r, c.createRule = some r → r ≠ "" →
      env.createBuildOk r = true ∧ env.createRuleExec rec = .ok true) :
    (recordCreate (some c) env).finCount =
      match env.hook with
      | .stopError _ => 0
      | .stopNoError => if env.hasFinalizer then 1 else 0
      | .proceed =>
        if env.submitOk && env.enrichOk && env.respondOk && env.hasFinalizer
        then 1 else 0 := by
  obtain ⟨ex, hex⟩ :=
    hdb (mkDummyRecord (createLoadedRecord c info env) env.randSuffix)
  have hfb : (!info.hasSuperuserAuth && c.createRule.isNone) = false := by
    cases hsu : info.hasSuperuserAuth with
    | true => simp
    | false =>
      cases hcr : c.createRule with
      | none => exact absurd ⟨hsu, hcr⟩ hforbid
      | some r => simp
  have hred : recordCreate (some c) env =
      match env.hook with
      | .stopError e => ⟨.apiErr e, 0, none, none, false⟩
      | .stopNoError =>
        if env.hasFinalizer then
          if env.finalizerOk then ⟨.stopped, 1, none, none, false⟩
          else ⟨.apiErr (.internal ""), 1, none, none, false⟩
        else ⟨.stopped, 0, none, none, false⟩
      | .proceed =>
        recordCreateInner c info (createLoadedRecord c info env) env := by
    simp [recordCreate, h0, h1, h2, hfb, h4]
  rw [hred]
  cases hhk : env.hook with
  | stopError e => simp
  | stopNoError => cases env.hasFinalizer <;> cases env.finalizerOk <;> simp
  | proceed =>
    cases hsu : info.hasSuperuserAuth with
    | true =>
      simp [recordCreateInner, hsu, recordCreateFinish_finCount_eq]
    | false =>
      rcases hcr : c.createRule with _ | r
      · exact absurd ⟨hsu, hcr⟩ hforbid
      · by_cases hre : r = ""
        · subst hre
          simp [recordCreateInner, hsu, hcr, hex, recordCreateFinish_finCount_eq]
        · obtain ⟨hb, hexe⟩ := hrulepass
            (mkDummyRecord (createLoadedRecord c info env) env.randSuffix) r hcr hre
          simp [recordCreateInner, hsu, hcr, hre, hb, hexe, hex,
            recordCreateFinish_finCount_eq]

set_option maxHeartbeats 2000000 in
theorem recordUpdate_hook_stage_finCount (c : Collection) (env : UpdateEnv)
    (info : RequestInfo) (rec0 rec : Record) (preds : List String)
    (h0 : c.isView = false) (h1 : env.rateLimitErr = false)
    (h2 : env.recordId ≠ "") (h3 : env.requestInfo = some info)
    (hforbid : ¬(info.hasSuperuserAuth = false ∧ c.updateRule = none))
    (hfind : env.db.find? (fun x => x.id == env.recordId) = some rec0)
    (h6 : env.extractFilesErr = false)
    (hpreds : (match c.updateRule with
        | some r =>
          if !info.hasSuperuserAuth && r != "" then
            if env.buildOk r then Except.ok [r] else Except.error ()
          else Except.ok []
        | none => (Except.ok [] : Except Unit (List String))) = Except.ok preds)
    (hfound : findRecordById env.db env.recordId preds env.evalPred = some rec) :
    (recordUpdate (some c) env).finCount =
      match env.hook with
      | .stopError _ => 0
      | .stopNoError => if env.hasFinalizer then 1 else 0
      | .proceed =>
        if env.submitOk && env.enrichOk && env.respondOk && env.hasFinalizer
        then 1 else 0 := by
  have heager : findRecordById env.db env.recordId [] env.evalPred = some rec0 := by
    simp [findRecordById, Option.filter, hfind]
  rcases hdr : c.updateRule with _ | r
  · cases hsu : info.hasSuperuserAuth with
    | false => exact absurd ⟨hsu, hdr⟩ hforbid
    | true =>
      rw [hdr] at hpreds
      injection hpreds with hp
      subst hp
      cases hhk : env.hook <;> cases hhf : env.hasFinalizer <;>
        cases hfk : env.finalizerOk <;> cases hs : env.submitOk <;>
          cases he : env.enrichOk <;> cases hr : env.respondOk <;>
            simp [recordUpdate, h0, h1, beq_false_of_ne h2, h3, h6, hsu,
              hdr, heager, hfound, hhk, hhf, hfk, hs, he, hr]
  · rw [hdr] at hpreds
    cases hsu : info.hasSuperuserAuth with
    | true =>
      rw [hsu] at hpreds
      simp only [Bool.not_true, Bool.false_and, Bool.false_eq_true,
        if_false] at hpreds
      injection hpreds with hp
      subst hp
      cases hhk : env.hook <;> cases hhf : env.hasFinalizer <;>
        cases hfk : env.finalizerOk <;> cases hs : env.submitOk <;>
          cases he : env.enrichOk <;> cases hr : env.respondOk <;>
            simp [recordUpdate, h0, h1, beq_false_of_ne h2, h3, h6, hsu,
              hdr, heager, hfound, hhk, hhf, hfk, hs, he, hr]
    | false =>
      rw [hsu] at hpreds
      by_cases hre : r = ""
      · subst hre
        simp only [bne_self_eq_false, Bool.and_false, Bool.false_eq_true,
          if_false] at hpreds
        injection hpreds with hp
        subst hp
        cases hhk : env.hook <;> cases hhf : env.hasFinalizer <;>
          cases hfk : env.finalizerOk <;> cases hs : env.submitOk <;>
            cases he : env.enrichOk <;> cases hr : env.respondOk <;>
              simp [recordUpdate, h0, h1, beq_false_of_ne h2, h3, h6, hsu,
                hdr, heager, hfound, hhk, hhf, hfk, hs, he, hr]
      · cases hb : env.buildOk r with
        | false =>
          simp [hre, hb] at hpreds
        | true =>
          simp [hre, hb] at hpreds
          subst hpreds
          cases hhk : env.hook <;> cases hhf : env.hasFinalizer <;>
            cases hfk : env.finalizerOk <;> cases hs : env.submitOk <;>
              cases he : env.enrichOk <;> cases hr : env.respondOk <;>
                simp [recordUpdate, h0, h1, beq_false_of_ne h2, h3, h6, hsu,
                  hdr, hre, hb, heager, hfound, hhk, hhf, hfk, hs, he, hr]

theorem recordDelete_finCount_zero_of_hook_error (c : Option Collection)
    (env : DeleteEnv) (e : ApiErr) (hh : env.hook = .stopError e) :
    (recordDelete c env).finCount = 0 := by
  have hle := recordDelete_finCount_le_one c env
  by_cases h1 : (recordDelete c env).finCount = 1
  · rcases recordDelete_finCount_eq_one_only c env h1 with ⟨-, h2 | ⟨h2, -⟩⟩ <;>
      rw [hh] at h2 <;> exact HookMode.noConfusion h2
  · omega

theorem recordCreate_finCount_zero_of_hook_error (c : Option Collection)
    (env : CreateEnv) (e : ApiErr) (hh : env.hook = .stopError e) :
    (recordCreate c env).finCount = 0 := by
  have hle := recordCreate_finCount_le_one c env
  by_cases h1 : (recordCreate c env).finCount = 1
  · rcases recordCreate_finCount_eq_one_only c env h1 with ⟨-, h2 | ⟨h2, -⟩⟩ <;>
      rw [hh] at h2 <;> exact HookMode.noConfusion h2
  · omega

theorem recordUpdate_finCount_zero_of_hook_error (c : Option Collection)
    (env : UpdateEnv) (e : ApiErr) (hh : env.hook = .stopError e) :
    (recordUpdate c env).finCount = 0 := by
  have hle := recordUpdate_finCount_le_one c env
  by_cases h1 : (recordUpdate c env).finCount = 1
  · rcases recordUpdate_finCount_eq_one_only c env h1 with ⟨-, h2 | ⟨h2, -⟩⟩ <;>
      rw [hh] at h2 <;> exact HookMode.noConfusion h2
  · omega

theorem recordDelete_finCount_zero_of_step_failure (c : Option Collection)
    (env : DeleteEnv) (hh : env.hook = .proceed)
    (hf : env.deleteOk = false ∨ env.respondOk = false) :
    (recordDelete c env).finCount = 0 := by
  have hle := recordDelete_finCount_le_one c env
  by_cases h1 : (recordDelete c env).finCount = 1
  · rcases recordDelete_finCount_eq_one_only c env h1 with ⟨-, h2 | ⟨-, hdo, hro⟩⟩
    · rw [hh] at h2
      exact HookMode.noConfusion h2
    · rcases hf with hf | hf
      · rw [hf] at hdo
        exact Bool.noConfusion hdo
      · rw [hf] at hro
        exact Bool.noConfusion hro
  · omega

theorem recordCreate_finCount_zero_of_step_failure (c : Option Collection)
    (env : CreateEnv) (hh : env.hook = .proceed)
    (hf : env.submitOk = false ∨ env.enrichOk = false ∨ env.respondOk = false) :
    (recordCreate c env).finCount = 0 := by
  have hle := recordCreate_finCount_le_one c env
  by_cases h1 : (recordCreate c env).finCount = 1
  · rcases recordCreate_finCount_eq_one_only c env h1 with
      ⟨-, h2 | ⟨-, hs, he, hr⟩⟩
    · rw [hh] at h2
      exact HookMode.noConfusion h2
    · rcases hf with hf | hf | hf
      · rw [hf] at hs
        exact Bool.noConfusion hs
      · rw [hf] at he
        exact Bool.noConfusion he
      · rw [hf] at hr
        exact Bool.noConfusion hr
  · omega

theorem recordUpdate_finCount_zero_of_step_failure (c : Option Collection)
    (env : UpdateEnv) (hh : env.hook = .proceed)
    (hf : env.submitOk = false ∨ env.enrichOk = false ∨ env.respondOk = false) :
    (recordUpdate c env).finCount = 0 := by
  have hle := recordUpdate_finCount_le_one c env
  by_cases h1 : (recordUpdate c env).finCount = 1
  · rcases recordUpdate_finCount_eq_one_only c env h1 with
      ⟨-, h2 | ⟨-, hs, he, hr⟩⟩
    · rw [hh] at h2
      exact HookMode.noConfusion h2
    · rcases hf with hf | hf | hf
      · rw [hf] at hs
        exact Bool.noConfusion hs
      · rw [hf] at he
        exact Bool.noConfusion he
      · rw [hf] at hr
        exact Bool.noConfusion hr
  · omega

theorem recordCreateInner_finCount_zero_of_rule_failure (c : Collection)
    (info : RequestInfo) (record : Record) (env : CreateEnv) (r : String)
    (hsu : info.hasSuperuserAuth = false) (hcr : c.createRule = some r)
    (hre : r ≠ "")
    (hfail : env.dbExport (mkDummyRecord record env.randSuffix) = .error () ∨
      env.createBuildOk r = false ∨
      env.createRuleExec (mkDummyRecord record env.randSuffix) = .error () ∨
      env.createRuleExec (mkDummyRecord record env.randSuffix) = .ok false) :
    (recordCreateInner c info record env).finCount = 0 := by
  unfold recordCreateInner
  rcases hdbe : env.dbExport (mkDummyRecord record env.randSuffix) with u | ex
  · simp [hsu, hcr, hdbe]
  · rcases hfail with hd | hb | he | hf
    · rw [hdbe] at hd
      exact Except.noConfusion hd
    · simp [hsu, hcr, hre, hdbe, hb]
    · simp [hsu, hcr, hre, hdbe, he]
    · simp [hsu, hcr, hre, hdbe, hf]

theorem recordCreate_finCount_zero_of_rule_failure (c : Collection)
    (env : CreateEnv) (info : RequestInfo) (r : String)
    (h0 : c.isView = false) (h1 : env.rateLimitErr = false)
    (h2 : env.requestInfo = some info) (h3 : info.hasSuperuserAuth = false)
    (h4 : c.createRule = some r) (hre : r ≠ "")
    (h5 : env.extractFilesErr = false) (h6 : env.hook = .proceed)
    (hfail : env.dbExport
        (mkDummyRecord (createLoadedRecord c info env) env.randSuffix) =
          .error () ∨
      env.createBuildOk r = false ∨
      env.createRuleExec
        (mkDummyRecord (createLoadedRecord c info env) env.randSuffix) =
          .error () ∨
      env.createRuleExec
        (mkDummyRecord (createLoadedRecord c info env) env.randSuffix) =
          .ok false) :
    (recordCreate (some c) env).finCount = 0 := by
  have hred : recordCreate (some c) env =
      recordCreateInner c info (createLoadedRecord c info env) env := by
    simp [recordCreate, h0, h1, h2, h3, h4, h5, h6]
  rw [hred]
  exact recordCreateInner_finCount_zero_of_rule_failure c info
    (createLoadedRecord c info env) env r h3 h4 hre hfail

/-- C9 (amended): for create, update and delete, the optional finalizer is
never invoked more than once in any environment; it is invoked at all (then
exactly once) only when a finalizer is registered and the hook chain either
stopped early without error or ran the success function with submit, enrich
and response write all succeeding; for every request that reaches the
hook-trigger stage, the invocation count equals exactly the indicator of
those two no-error paths times the finalizer being registered; and it is
invoked zero times whenever the hook chain or the success function returns an
error before the inline finalizer call — on a hook-chain error, on a
delete/submit/enrich/response-write step failure, and on a failing create
check (dummy export error, rule build error, rule query error or a false rule
result). -/
theorem C9_finalizer_amended :
    (∀ (c : Option Collection) (env : DeleteEnv),
      (recordDelete c env).finCount ≤ 1) ∧
    (∀ (c : Option Collection) (env : CreateEnv),
      (recordCreate c env).finCount ≤ 1) ∧
    (∀ (c : Option Collection) (env : UpdateEnv),
      (recordUpdate c env).finCount ≤ 1) ∧
    (∀ (c : Option Collection) (env : DeleteEnv),
      (recordDelete c env).finCount = 1 →
      env.hasFinalizer = true ∧
        (env.hook = .stopNoError ∨
          (env.hook = .proceed ∧ env.deleteOk = true ∧
           env.respondOk = true))) ∧
    (∀ (c : Option Collection) (env : CreateEnv),
      (recordCreate c env).finCount = 1 →
      env.hasFinalizer = true ∧
        (env.hook = .stopNoError ∨
          (env.hook = .proceed ∧ env.submitOk = true ∧ env.enrichOk = true ∧
           env.respondOk = true))) ∧
    (∀ (c : Option Collection) (env : UpdateEnv),
      (recordUpdate c env).finCount = 1 →
      env.hasFinalizer = true ∧
        (env.hook = .stopNoError ∨
          (env.hook = .proceed ∧ env.submitOk = true ∧ env.enrichOk = true ∧
           env.respondOk = true))) ∧
    (∀ (c : Collection) (env : DeleteEnv) (info : RequestInfo) (rec : Record)
       (preds : List String),
      c.isView = false → env.rateLimitErr = false → env.recordId ≠ "" →
      env.requestInfo = some info →
      ¬(info.hasSuperuserAuth = false ∧ c.deleteRule = none) →
      (match c.deleteRule with
        | some r =>
          if !info.hasSuperuserAuth && r != "" then
            if env.buildOk r then Except.ok [r] else Except.error ()
          else Except.ok []
        | none => (Except.ok [] : Except Unit (List String))) = Except.ok preds →
      findRecordById env.db env.recordId preds env.evalPred = some rec →
      (recordDelete (some c) env).finCount =
        match env.hook with
        | .stopError _ => 0
        | .stopNoError => if env.hasFinalizer then 1 else 0
        | .proceed =>
          if env.deleteOk && env.respondOk && env.hasFinalizer
          then 1 else 0) ∧
    (∀ (c : Collection) (env : CreateEnv) (info : RequestInfo),
      c.isView = false → env.rateLimitErr = false →
      env.requestInfo = some info →
      ¬(info.hasSuperuserAuth = false ∧ c.createRule = none) →
      env.extractFilesErr = false →
      (∀ rec, ∃ ex, env.dbExport rec = .ok ex) →
      (∀ rec r, c.createRule = some r → r ≠ "" →
        env.createBuildOk r = true ∧ env.createRuleExec rec = .ok true) →
      (recordCreate (some c) env).finCount =
        match env.hook with
        | .stopError _ => 0
        | .stopNoError => if env.hasFinalizer then 1 else 0
        | .proceed =>
          if env.submitOk && env.enrichOk && env.respondOk && env.hasFinalizer
          then 1 else 0) ∧
    (∀ (c : Collection) (env : UpdateEnv) (info : RequestInfo)
       (rec0 rec : Record) (preds : List String),
      c.isView = false → env.rateLimitErr = false → env.recordId ≠ "" →
      env.requestInfo = some info →
      ¬(info.hasSuperuserAuth = false ∧ c.updateRule = none) →
      env.db.find? (fun x => x.id == env.recordId) = some rec0 →
      env.extractFilesErr = false →
      (match c.updateRule with
        | some r =>
          if !info.hasSuperuserAuth && r != "" then
            if env.buildOk r then Except.ok [r] else Except.error ()
          else Except.ok []
        | none => (Except.ok [] : Except Unit (List String))) = Except.ok preds →
      findRecordById env.db env.recordId preds env.evalPred = some rec →
      (recordUpdate (some c) env).finCount =
        match env.hook with
        | .stopError _ => 0
        | .stopNoError => if env.hasFinalizer then 1 else 0
        | .proceed =>
          if env.submitOk && env.enrichOk && env.respondOk && env.hasFinalizer
          then 1 else 0) ∧
    (∀ (c : Option Collection) (env : DeleteEnv) (e : ApiErr),
      env.hook = .stopError e → (recordDelete c env).finCount = 0) ∧
    (∀ (c : Option Collection) (env : CreateEnv) (e : ApiErr),
      env.hook = .stopError e → (recordCreate c env).finCount = 0) ∧
    (∀ (c : Option Collection) (env : UpdateEnv) (e : ApiErr),
      env.hook = .stopError e → (recordUpdate c env).finCount = 0) ∧
    (∀ (c : Option Collection) (env : DeleteEnv),
      env.hook = .proceed →
      env.deleteOk = false ∨ env.respondOk = false →
      (recordDelete c env).finCount = 0) ∧
    (∀ (c : Option Collection) (env : CreateEnv),
      env.hook = .proceed →
      env.submitOk = false ∨ env.enrichOk = false ∨ env.respondOk = false →
      (recordCreate c env).finCount = 0) ∧
    (∀ (c : Option Collection) (env : UpdateEnv),
      env.hook = .proceed →
      env.submitOk = false ∨ env.enrichOk = false ∨ env.respondOk = false →
      (recordUpdate c env).finCount = 0) ∧
    (∀ (c : Collection) (env : CreateEnv) (info : RequestInfo) (r : String),
      c.isView = false → env.rateLimitErr = false →
      env.requestInfo = some info → info.hasSuperuserAuth = false →
      c.createRule = some r → r ≠ "" → env.extractFilesErr = false →
      env.hook = .proceed →
      (env.dbExport
          (mkDummyRecord (createLoadedRecord c info env) env.randSuffix) =
            .error () ∨
        env.createBuildOk r = false ∨
        env.createRuleExec
          (mkDummyRecord (createLoadedRecord c info env) env.randSuffix) =
            .error () ∨
        env.createRuleExec
          (mkDummyRecord (createLoadedRecord c info env) env.randSuffix) =
            .ok false) →
      (recordCreate (some c) env).finCount = 0) :=
  ⟨recordDelete_finCount_le_one, recordCreate_finCount_le_one,
   recordUpdate_finCount_le_one,
   recordDelete_finCount_eq_one_only, recordCreate_finCount_eq_one_only,
   recordUpdate_finCount_eq_one_only,
   fun c env info rec preds h0 h1 h2 h3 hforbid hpreds hfound =>
     recordDelete_hook_stage_finCount c env info rec preds h0 h1 h2 h3
       hforbid hpreds hfound,
   fun c env info h0 h1 h2 hforbid h4 hdb hrulepass =>
     recordCreate_hook_stage_finCount c env info h0 h1 h2 hforbid h4 hdb
       hrulepass,
   fun c env info rec0 rec preds h0 h1 h2 h3 hforbid hfind h6 hpreds hfound =>
     recordUpdate_hook_stage_finCount c env info rec0 rec preds h0 h1 h2 h3
       hforbid hfind h6 hpreds hfound,
   recordDelete_finCount_zero_of_hook_error,
   recordCreate_finCount_zero_of_hook_error,
   recordUpdate_finCount_zero_of_hook_error,
   recordDelete_finCount_zero_of_step_failure,
   recordCreate_finCount_zero_of_step_failure,
   recordUpdate_finCount_zero_of_step_failure,
   fun c env info r h0 h1 h2 h3 h4 hre h5 h6 hfail =>
     recordCreate_finCount_zero_of_rule_failure c env info r h0 h1 h2 h3 h4
       hre h5 h6 hfail⟩

/-- Witness for C9 (amended) at concrete inputs: with a registered finalizer
on a request reaching the hook-trigger stage, an error-free early stop and
the normal path each invoke the finalizer exactly once, while a failing
delete step, an error-stopped hook chain and a false create-rule result each
invoke it zero times. -/
theorem C9_witness :
    (recordDelete (some colEmptyRules) deleteEnvStopNoErr).finCount = 1 ∧
    (recordDelete (some colEmptyRules)
      { deleteEnv0 with hasFinalizer := true }).finCount = 1 ∧
    (recordDelete (some colEmptyRules)
      { deleteEnv0 with hasFinalizer := true, deleteOk := false }).finCount = 0 ∧
    (recordDelete (some colEmptyRules)
      { deleteEnvHookErr with deleteOk := false }).finCount = 0 ∧
    (recordCreate (some colRules)
      { createEnvRuleFalse with hasFinalizer := true }).finCount = 0 :=
  ⟨(C9_finalizer_amended.2.2.2.2.2.2.1 colEmptyRules deleteEnvStopNoErr
      infoAnon rec1 [] rfl rfl (by decide) rfl (by decide) rfl
      (by decide)).trans (by decide),
   (C9_finalizer_amended.2.2.2.2.2.2.1 colEmptyRules
      { deleteEnv0 with hasFinalizer := true } infoAnon rec1 [] rfl rfl
      (by decide) rfl (by decide) rfl (by decide)).trans (by decide),
   (C9_finalizer_amended.2.2.2.2.2.2.1 colEmptyRules
      { deleteEnv0 with hasFinalizer := true, deleteOk := false } infoAnon
      rec1 [] rfl rfl (by decide) rfl (by decide) rfl
      (by decide)).trans (by decide),
   C9_finalizer_amended.2.2.2.2.2.2.2.2.2.1 (some colEmptyRules)
     { deleteEnvHookErr with deleteOk := false } (.badRequest "hook failure")
     rfl,
   C9_finalizer_amended.2.2.2.2.2.2.2.2.2.2.2.2.2.2.2 colRules
     { createEnvRuleFalse with hasFinalizer := true } infoUser "id ~ nonempty"
     rfl rfl rfl rfl rfl (by decide) rfl rfl
     (Or.inr (Or.inr (Or.inr rfl)))⟩

/-- A list environment for a non-superuser with a non-empty client filter, an
empty result page, an exhausted timing bucket and a failing crypto source. -/
def listEnvThrottle : ListEnv :=
  { rateLimitErr := false, requestInfo := some infoUser, superuserOnlyFieldsErr := false
    buildOk := fun _ => true, execSearch := fun _ => .ok [], hook := .proceed
    enrichOk := true, timingBucketExhausted := true, randInt := none, respondOk := true }

/-- The same environment with the timing bucket not yet exhausted. -/
def listEnvNotExhausted : ListEnv :=
  { listEnvThrottle with timingBucketExhausted := false }

/-- C8 counterexample: with all other trigger conditions met, the randomized
throttle fires precisely when the timing rate-limit bucket IS already
exhausted (the `checkRateLimit` call returns an error) — the opposite of the
claimed "not yet exhausted" — and when the crypto random source errors the
slept duration is exactly 150 ms, which is not strictly within `[0, 150)`. -/
theorem C8_counterexample :
    (recordsList (some colRules) listEnvThrottle).sleptMs = some 150 ∧
    listEnvThrottle.timingBucketExhausted = true ∧
    ¬(150 < 150) ∧
    (recordsList (some colRules) listEnvNotExhausted).sleptMs = none ∧
    listEnvNotExhausted.timingBucketExhausted = false := by
  refine ⟨by decide, rfl, by decide, by decide, rfl⟩

/-- C8 (amended): the randomized delay in `recordsList` is triggered exactly
when the caller is not a superuser, `ListRule` is non-nil and non-empty, the
client filter query parameter is non-empty, the returned record list is
empty, and the per-collection timing rate-limit bucket (3 requests per 3
seconds, keyed by collection id) IS already exhausted (the rate-limit check
returns an error); when triggered it sleeps `cryptoRand.Int(150)` — strictly
within `[0, 150)` whenever the crypto source succeeds, and exactly 150 ms on
a crypto source error. -/
theorem C8_throttle_amended
    (c : Collection) (env : ListEnv) (info : RequestInfo) (r : String)
    (recs : List Record)
    (h1 : env.rateLimitErr = false) (h2 : env.requestInfo = some info)
    (h3 : env.superuserOnlyFieldsErr = false) (h4 : c.listRule = some r)
    (h5 : r ≠ "") (h6 : env.buildOk r = true)
    (h7 : ∀ q, env.execSearch q = .ok recs)
    (h8 : env.hook = .proceed) (h9 : env.enrichOk = true) :
    ((recordsList (some c) env).sleptMs ≠ none ↔
      (info.hasSuperuserAuth = false ∧ info.queryFilter ≠ "" ∧ recs = [] ∧
       env.timingBucketExhausted = true)) ∧
    (∀ t, (recordsList (some c) env).sleptMs = some t →
      t = randomizedThrottleTimeout 150 env.randInt) ∧
    (∀ rnd, env.randInt = some rnd → rnd < 150 →
      ∀ t, (recordsList (some c) env).sleptMs = some t → t < 150) ∧
    (env.randInt = none →
      ∀ t, (recordsList (some c) env).sleptMs = some t → t = 150) := by
  have key : (recordsList (some c) env).sleptMs =
      if info.hasSuperuserAuth = false ∧ info.queryFilter ≠ "" ∧ recs = [] ∧
          env.timingBucketExhausted = true
      then some (randomizedThrottleTimeout 150 env.randInt)
      else none := by
    cases hsu : info.hasSuperuserAuth <;>
      cases hbx : env.timingBucketExhausted <;>
        cases hrsp : env.respondOk <;>
          by_cases hfil : info.queryFilter = "" <;>
            by_cases hrecs : recs = [] <;>
              simp [recordsList, checkRateLimit, List.length_eq_zero, h1, h2,
                h3, h4, h5, h6, h7, h8, h9, hsu, hbx, hrsp, hfil, hrecs]
  rw [key]
  by_cases hcond : info.hasSuperuserAuth = false ∧ info.queryFilter ≠ "" ∧
      recs = [] ∧ env.timingBucketExhausted = true
  · simp only [if_pos hcond]
    refine ⟨⟨fun _ => hcond, fun _ => by simp⟩, ?_, ?_, ?_⟩
    · intro t ht
      injection ht with ht
      exact ht.symm
    · intro rnd hrnd hlt t ht
      injection ht with ht
      subst ht
      simp [randomizedThrottleTimeout, hrnd, hlt]
    · intro hnone t ht
      injection ht with ht
      subst ht
      simp [randomizedThrottleTimeout, hnone]
  · simp only [if_neg hcond]
    exact ⟨by simp [hcond], by simp, by simp, by simp⟩

/-- Witness for C8 (amended) at concrete inputs: the throttle fires for the
bucket-exhausted environment and sleeps exactly 150 ms there (crypto failure
fallback), and does not fire when the bucket is not exhausted. -/
theorem C8_witness :
    (recordsList (some colRules) listEnvThrottle).sleptMs ≠ none ∧
    (∀ t, (recordsList (some colRules) listEnvThrottle).sleptMs = some t →
      t = 150) ∧
    ¬((recordsList (some colRules) listEnvNotExhausted).sleptMs ≠ none) :=
  ⟨(C8_throttle_amended colRules listEnvThrottle infoUser "id ~ nonempty" []
      rfl rfl rfl rfl (by decide) rfl (fun _ => rfl) rfl rfl).1.mpr
      ⟨rfl, by decide, rfl, rfl⟩,
   (C8_throttle_amended colRules listEnvThrottle infoUser "id ~ nonempty" []
      rfl rfl rfl rfl (by decide) rfl (fun _ => rfl) rfl rfl).2.2.2 rfl,
   by
     intro h
     have hc := (C8_throttle_amended colRules listEnvNotExhausted infoUser
       "id ~ nonempty" [] rfl rfl rfl rfl (by decide) rfl (fun _ => rfl) rfl
       rfl).1.mp h
     simp [listEnvNotExhausted, listEnvThrottle] at hc⟩

/-- Witness for C3 at concrete inputs: escalation denied on a collection
without ManageRule even for an authenticated caller with a passing query, and
granted on an auth collection with a non-empty ManageRule, authenticated
caller, successful build and a true query result. -/
theorem C3_witness :
    hasAuthManageAccess colNil (some infoUser) true (.ok true) = false ∧
    hasAuthManageAccess colRules (some infoUser) true (.ok true) = true :=
  ⟨(C3_hasAuthManageAccess_characterization colNil (some infoUser) true
      (.ok true)).2 (Or.inl rfl),
   (C3_hasAuthManageAccess_characterization colRules (some infoUser) true
      (.ok true)).1.mpr
      ⟨rfl, ⟨"id ~ nonempty", rfl, by decide⟩,
       ⟨infoUser, rfl, ⟨"user1", rfl⟩⟩, rfl, rfl⟩⟩

/-- Witness for C5 at concrete inputs: for an authenticated non-superuser on
the auth collection, the hidden `tokenKey` field is absent from the submitted
data, the hidden `password` entry is preserved, and the list trace records
hidden-field resolution disabled for the anonymous caller. -/
theorem C5_witness :
    (recordDataFromRequest infoUser colRules (fun d => d)).lookup "tokenKey" =
      none ∧
    (recordDataFromRequest infoUser colRules (fun d => d)).lookup
      fieldNamePassword = infoUser.body.lookup fieldNamePassword ∧
    (∀ b, (recordsList (some colRules) listEnv0).allowHiddenFields = some b →
      b = infoAnon.hasSuperuserAuth) :=
  ⟨((C5_hidden_fields_excluded infoUser colRules (fun d => d)).1 rfl).1
      ⟨"tokenKey", true⟩ (by decide) rfl (by decide),
   ((C5_hidden_fields_excluded infoUser colRules (fun d => d)).1 rfl).2 rfl,
   fun b hb =>
     (C5_hidden_fields_excluded infoUser colRules (fun d => d)).2 listEnv0
       colRules infoAnon b rfl hb⟩

end HanzoBase
